import Mathlib

/-!
Verification development for the sports-data API client
(src/api_client.py of arasovic/scrapper-sportz).

The Python source is shallowly embedded: every pipeline function of the
client is translated to a total Lean function over typed models of the raw
JSON payloads.  Python scalar values that the code inspects dynamically
(integers, strings, None) are modelled by the PyVal type together with
models of the Python primitives the source uses on them: str() conversion
(pyToStr), truthiness (pyTruthy) and equality (pyEq).  Ambient state read
by the source (the wall clock sampled by time.time() and
datetime.now().isoformat()) is passed as explicit parameters, one per
sampling site.
-/

/-- Model of the Python scalar values the client manipulates dynamically:
integers, strings and None. -/
inductive PyVal where
  | pyNone : PyVal
  | pyInt (n : Int) : PyVal
  | pyStr (s : String) : PyVal
deriving DecidableEq

/-- Decimal digit characters of a natural number, most significant first
(Python renders naturals this way inside str()). -/
def natDecimalChars (n : Nat) : List Char :=
  ((Nat.digits 10 n).map Nat.digitChar).reverse

/-- Model of Python str() on a natural number. -/
def pyStrNat (n : Nat) : String :=
  if n = 0 then "0" else String.mk (natDecimalChars n)

/-- Model of Python str() on an integer. -/
def pyStrInt (i : Int) : String :=
  if i < 0 then "-" ++ pyStrNat i.natAbs else pyStrNat i.toNat

/-- Model of Python str() as used by the source in f-strings and in
str(market_type). -/
def pyToStr : PyVal → String
  | .pyNone => "None"
  | .pyInt n => pyStrInt n
  | .pyStr s => s

/-- Model of Python truthiness for the scalar values above. -/
def pyTruthy : PyVal → Bool
  | .pyNone => false
  | .pyInt n => n != 0
  | .pyStr s => s != ""

/-- Model of the Python == test between scalar values (values of distinct
types compare unequal). -/
def pyEq : PyVal → PyVal → Bool
  | .pyInt m, .pyInt n => m == n
  | .pyStr a, .pyStr b => a == b
  | .pyNone, .pyNone => true
  | _, _ => false

lemma digitChar_inj_lt : ∀ a < 10, ∀ b < 10, Nat.digitChar a = Nat.digitChar b → a = b := by
  decide

lemma digitChar_ne_dash : ∀ a < 10, Nat.digitChar a ≠ '-' := by
  decide

lemma map_digitChar_inj :
    ∀ l₁ l₂ : List Nat, (∀ x ∈ l₁, x < 10) → (∀ x ∈ l₂, x < 10) →
      l₁.map Nat.digitChar = l₂.map Nat.digitChar → l₁ = l₂ := by
  intro l₁
  induction l₁ with
  | nil =>
    intro l₂ _ _ h
    cases l₂ with
    | nil => rfl
    | cons b t => simp at h
  | cons a t ih =>
    intro l₂ h₁ h₂ h
    cases l₂ with
    | nil => simp at h
    | cons b t₂ =>
      simp only [List.map_cons, List.cons.injEq] at h
      have hab : a = b :=
        digitChar_inj_lt a (h₁ a (by simp)) b (h₂ b (by simp)) h.1
      have ht : t = t₂ :=
        ih t₂ (fun x hx => h₁ x (by simp [hx])) (fun x hx => h₂ x (by simp [hx])) h.2
      rw [hab, ht]

lemma natDecimalChars_inj :
    ∀ m n : Nat, natDecimalChars m = natDecimalChars n → m = n := by
  intro m n h
  unfold natDecimalChars at h
  have h' := List.reverse_injective h
  have hd : Nat.digits 10 m = Nat.digits 10 n :=
    map_digitChar_inj _ _
      (fun x hx => Nat.digits_lt_base (by norm_num) hx)
      (fun x hx => Nat.digits_lt_base (by norm_num) hx) h'
  exact Nat.digits.injective 10 hd

lemma natDecimalChars_all_digit :
    ∀ n : Nat, ∀ c ∈ natDecimalChars n, ∃ d, d < 10 ∧ Nat.digitChar d = c := by
  intro n c hc
  unfold natDecimalChars at hc
  rw [List.mem_reverse, List.mem_map] at hc
  obtain ⟨d, hd, hdc⟩ := hc
  exact ⟨d, Nat.digits_lt_base (by norm_num) hd, hdc⟩

lemma pyStrNat_zero : pyStrNat 0 = "0" := by
  unfold pyStrNat
  rw [if_pos rfl]

lemma pyStrNat_data (n : Nat) (h : n ≠ 0) : (pyStrNat n).data = natDecimalChars n := by
  unfold pyStrNat
  rw [if_neg h]

lemma string_data_inj {s t : String} (h : s.data = t.data) : s = t := by
  cases s
  cases t
  simp_all

lemma natDecimalChars_ne_single_zero (n : Nat) (h : n ≠ 0) : natDecimalChars n ≠ ['0'] := by
  intro hd
  have hmap : (Nat.digits 10 n).map Nat.digitChar = ['0'] := by
    have h₂ := congrArg List.reverse hd
    simpa [natDecimalChars] using h₂
  have hdig : Nat.digits 10 n = [0] :=
    map_digitChar_inj _ [0] (fun x hx => Nat.digits_lt_base (by norm_num) hx) (by simp)
      (by simpa using hmap)
  have h₃ := Nat.getLast_digit_ne_zero 10 h
  simp [hdig] at h₃

lemma pyStrNat_head :
    ∀ n : Nat, ∃ c t, (pyStrNat n).data = c :: t ∧ c ≠ '-' := by
  intro n
  by_cases h : n = 0
  · subst h
    refine ⟨'0', [], ?_, by decide⟩
    rw [pyStrNat_zero]
  · have hne : natDecimalChars n ≠ [] := by
      unfold natDecimalChars
      simp only [ne_eq, List.reverse_eq_nil_iff, List.map_eq_nil_iff]
      exact Nat.digits_ne_nil_iff_ne_zero.mpr h
    obtain ⟨c, t, hct⟩ := List.exists_cons_of_ne_nil hne
    have hc : c ∈ natDecimalChars n := by rw [hct]; simp
    obtain ⟨d, hd10, hdc⟩ := natDecimalChars_all_digit n c hc
    refine ⟨c, t, ?_, ?_⟩
    · rw [pyStrNat_data n h]
      exact hct
    · rw [← hdc]
      exact digitChar_ne_dash d hd10

lemma pyStrNat_inj : Function.Injective pyStrNat := by
  intro m n h
  have hdata := congrArg String.data h
  rcases eq_or_ne m 0 with rfl | hm
  · rcases eq_or_ne n 0 with rfl | hn
    · rfl
    · exfalso
      rw [pyStrNat_zero, pyStrNat_data n hn] at hdata
      have h0 : ("0" : String).data = ['0'] := by decide
      rw [h0] at hdata
      exact natDecimalChars_ne_single_zero n hn hdata.symm
  · rcases eq_or_ne n 0 with rfl | hn
    · exfalso
      rw [pyStrNat_zero, pyStrNat_data m hm] at hdata
      have h0 : ("0" : String).data = ['0'] := by decide
      rw [h0] at hdata
      exact natDecimalChars_ne_single_zero m hm hdata
    · rw [pyStrNat_data m hm, pyStrNat_data n hn] at hdata
      exact natDecimalChars_inj m n hdata

lemma pyStrInt_inj : Function.Injective pyStrInt := by
  intro a b h
  unfold pyStrInt at h
  have hdash : ("-" : String).data = ['-'] := by decide
  by_cases ha : a < 0 <;> by_cases hb : b < 0
  · rw [if_pos ha, if_pos hb] at h
    have hdata := congrArg String.data h
    simp only [String.data_append, hdash] at hdata
    have h₂ : (pyStrNat a.natAbs).data = (pyStrNat b.natAbs).data := by
      simpa using hdata
    have habs : a.natAbs = b.natAbs := pyStrNat_inj (string_data_inj h₂)
    omega
  · exfalso
    rw [if_pos ha, if_neg hb] at h
    obtain ⟨c, t, hct, hcd⟩ := pyStrNat_head b.toNat
    have hdata := congrArg String.data h
    simp only [String.data_append, hdash, hct] at hdata
    obtain ⟨hc, -⟩ : '-' = c ∧ (pyStrNat a.natAbs).data = t := by simpa using hdata
    exact hcd hc.symm
  · exfalso
    rw [if_neg ha, if_pos hb] at h
    obtain ⟨c, t, hct, hcd⟩ := pyStrNat_head a.toNat
    have hdata := congrArg String.data h
    simp only [String.data_append, hdash, hct] at hdata
    obtain ⟨hc, -⟩ : c = '-' ∧ t = (pyStrNat b.natAbs).data := by simpa using hdata
    exact hcd hc
  · rw [if_neg ha, if_neg hb] at h
    have h₂ := pyStrNat_inj h
    omega

lemma digits_ten_single (n : Nat) (h1 : 0 < n) (h2 : n < 10) : Nat.digits 10 n = [n] := by
  rw [Nat.digits_def' (by norm_num : (1:Nat) < 10) h1]
  rw [Nat.div_eq_of_lt h2, Nat.mod_eq_of_lt h2]
  simp

lemma digits_ten_double (n : Nat) (h1 : 10 ≤ n) (h2 : n < 100) :
    Nat.digits 10 n = [n % 10, n / 10] := by
  rw [Nat.digits_def' (by norm_num : (1:Nat) < 10) (by omega)]
  congr 1
  exact digits_ten_single (n / 10) (by omega) (by omega)

lemma pyStrInt_ofNat (n : Nat) : pyStrInt (n : Int) = pyStrNat n := by
  unfold pyStrInt
  rw [if_neg (by omega)]
  simp

lemma pyStrNat_single (n : Nat) (h1 : 0 < n) (h2 : n < 10) :
    pyStrNat n = String.mk [Nat.digitChar n] := by
  unfold pyStrNat
  rw [if_neg (by omega)]
  unfold natDecimalChars
  rw [digits_ten_single n h1 h2]
  rfl

lemma pyStrNat_double (n : Nat) (h1 : 10 ≤ n) (h2 : n < 100) :
    pyStrNat n = String.mk [Nat.digitChar (n / 10), Nat.digitChar (n % 10)] := by
  unfold pyStrNat
  rw [if_neg (by omega)]
  unfold natDecimalChars
  rw [digits_ten_double n h1 h2]
  rfl

lemma pyStrInt_1 : pyStrInt 1 = "1" := by
  rw [show (1:Int) = ((1:Nat) : Int) by rfl, pyStrInt_ofNat,
    pyStrNat_single 1 (by norm_num) (by norm_num)]
  decide

lemma pyStrInt_2 : pyStrInt 2 = "2" := by
  rw [show (2:Int) = ((2:Nat) : Int) by rfl, pyStrInt_ofNat,
    pyStrNat_single 2 (by norm_num) (by norm_num)]
  decide

lemma pyStrInt_3 : pyStrInt 3 = "3" := by
  rw [show (3:Int) = ((3:Nat) : Int) by rfl, pyStrInt_ofNat,
    pyStrNat_single 3 (by norm_num) (by norm_num)]
  decide

lemma pyStrInt_4 : pyStrInt 4 = "4" := by
  rw [show (4:Int) = ((4:Nat) : Int) by rfl, pyStrInt_ofNat,
    pyStrNat_single 4 (by norm_num) (by norm_num)]
  decide

lemma pyStrInt_5 : pyStrInt 5 = "5" := by
  rw [show (5:Int) = ((5:Nat) : Int) by rfl, pyStrInt_ofNat,
    pyStrNat_single 5 (by norm_num) (by norm_num)]
  decide

lemma pyStrInt_6 : pyStrInt 6 = "6" := by
  rw [show (6:Int) = ((6:Nat) : Int) by rfl, pyStrInt_ofNat,
    pyStrNat_single 6 (by norm_num) (by norm_num)]
  decide

lemma pyStrInt_7 : pyStrInt 7 = "7" := by
  rw [show (7:Int) = ((7:Nat) : Int) by rfl, pyStrInt_ofNat,
    pyStrNat_single 7 (by norm_num) (by norm_num)]
  decide

lemma pyStrInt_8 : pyStrInt 8 = "8" := by
  rw [show (8:Int) = ((8:Nat) : Int) by rfl, pyStrInt_ofNat,
    pyStrNat_single 8 (by norm_num) (by norm_num)]
  decide

lemma pyStrInt_9 : pyStrInt 9 = "9" := by
  rw [show (9:Int) = ((9:Nat) : Int) by rfl, pyStrInt_ofNat,
    pyStrNat_single 9 (by norm_num) (by norm_num)]
  decide

lemma pyStrInt_10 : pyStrInt 10 = "10" := by
  rw [show (10:Int) = ((10:Nat) : Int) by rfl, pyStrInt_ofNat,
    pyStrNat_double 10 (by norm_num) (by norm_num)]
  decide

lemma pyStrInt_11 : pyStrInt 11 = "11" := by
  rw [show (11:Int) = ((11:Nat) : Int) by rfl, pyStrInt_ofNat,
    pyStrNat_double 11 (by norm_num) (by norm_num)]
  decide

lemma pyStrInt_12 : pyStrInt 12 = "12" := by
  rw [show (12:Int) = ((12:Nat) : Int) by rfl, pyStrInt_ofNat,
    pyStrNat_double 12 (by norm_num) (by norm_num)]
  decide

lemma pyStrInt_13 : pyStrInt 13 = "13" := by
  rw [show (13:Int) = ((13:Nat) : Int) by rfl, pyStrInt_ofNat,
    pyStrNat_double 13 (by norm_num) (by norm_num)]
  decide

lemma pyStrInt_14 : pyStrInt 14 = "14" := by
  rw [show (14:Int) = ((14:Nat) : Int) by rfl, pyStrInt_ofNat,
    pyStrNat_double 14 (by norm_num) (by norm_num)]
  decide

lemma pyStrInt_15 : pyStrInt 15 = "15" := by
  rw [show (15:Int) = ((15:Nat) : Int) by rfl, pyStrInt_ofNat,
    pyStrNat_double 15 (by norm_num) (by norm_num)]
  decide

lemma pyStrInt_eq_iff {n k : Int} (s : String) (hk : pyStrInt k = s) :
    pyStrInt n = s ↔ n = k :=
  ⟨fun h => pyStrInt_inj (by rw [h, hk]), fun h => by rw [h, hk]⟩

/-- A cache entry as stored in the self.cache dictionary: the processed
payload together with the time.time() value at which it was stored
(api_client.py lines 151-155). -/
structure CacheEntry (α : Type) where
  data : α
  timestamp : Rat
deriving DecidableEq

/-- The self.cache dictionary, restricted to the entries of one endpoint
(the three endpoints use disjoint key prefixes). -/
def Cache (α : Type) : Type := String → Option (CacheEntry α)

def emptyCache (α : Type) : Cache α := fun _ => none

/-- The cache lookup performed at the top of each fetcher (lines 111-117,
186-191, 266-272): return the stored data only when the entry age is
strictly below the ttl; a stale entry is left in place, it is simply not
returned. -/
def cacheGet {α : Type} (cache : Cache α) (key : String) (ttl now : Rat) : Option α :=
  match cache key with
  | some e => if now - e.timestamp < ttl then some e.data else none
  | none => none

/-- The cache store performed on a successful fetch (lines 151-155,
224-228, 313-317): unconditionally overwrite the key with the payload and
a fresh time.time() stamp. -/
def cachePut {α : Type} (cache : Cache α) (key : String) (v : α) (now : Rat) : Cache α :=
  fun k => if k = key then some ⟨v, now⟩ else cache k

/-- One element of a raw market's o array (selection), with the keys the
source reads: no, n, odd, wodd, s.  A missing key is none. -/
structure RawSelection where
  no : Option Int := none
  n : Option PyVal := none
  odd : Option PyVal := none
  wodd : Option PyVal := none
  s : Option PyVal := none
deriving DecidableEq

/-- A raw market object (element of an event's m array), with the keys the
source reads: i, t, st, sov, s, v, o. -/
structure RawMarket where
  i : Option PyVal := none
  t : Option PyVal := none
  st : Option PyVal := none
  sov : Option PyVal := none
  s : Option PyVal := none
  v : Option PyVal := none
  o : Option (List RawSelection) := none
deriving DecidableEq

/-- A raw event object, with the keys the source reads: i, hn, an, d, il,
s, sid, mbc, m. -/
structure RawEvent where
  i : Option PyVal := none
  hn : Option String := none
  an : Option String := none
  d : Option PyVal := none
  il : Option Bool := none
  s : Option PyVal := none
  sid : Option PyVal := none
  mbc : Option Int := none
  m : Option (List RawMarket) := none
deriving DecidableEq

/-- The data object of the matches listing payload. -/
structure RawMatchesData where
  events : Option (List RawEvent) := none
deriving DecidableEq

/-- The top-level matches listing payload: the isSuccess flag (truthiness
of api_data.get, absent key behaves as false) and the optional data key. -/
structure RawMatchesPayload where
  isSuccess : Bool := false
  data : Option RawMatchesData := none
deriving DecidableEq

/-- The main_odds dictionary: at most the three keys home_win, draw,
away_win; none models an absent key, some v a key bound to v (v may be
pyNone when the selection had no odd key). -/
structure MainOdds where
  home_win : Option PyVal := none
  draw : Option PyVal := none
  away_win : Option PyVal := none
deriving DecidableEq

/-- One iteration of the selection loop of _extract_main_odds (lines
401-410): selection number 1 sets home_win, 0 sets draw, 2 sets away_win,
anything else leaves the dictionary unchanged. -/
def applyOdd (acc : MainOdds) (o : RawSelection) : MainOdds :=
  match o.no with
  | some 1 => { acc with home_win := some (o.odd.getD .pyNone) }
  | some 0 => { acc with draw := some (o.odd.getD .pyNone) }
  | some 2 => { acc with away_win := some (o.odd.getD .pyNone) }
  | _ => acc

/-- The test market.get('t') == 1 of line 399. -/
def isMainMarket (mkt : RawMarket) : Bool :=
  pyEq (mkt.t.getD .pyNone) (.pyInt 1)

/-- _extract_main_odds (lines 393-414): scan the markets for the first one
whose type code equals 1, fold its selections into the main_odds
dictionary, and stop scanning (the break of line 412). -/
def extractMainOdds : List RawMarket → MainOdds
  | [] => {}
  | mkt :: rest =>
    if isMainMarket mkt then (mkt.o.getD []).foldl applyOdd {}
    else extractMainOdds rest

/-- The match_data dictionary built for one event (lines 360-370). -/
structure MatchRec where
  event_id : Option PyVal
  teams : String
  home_team : String
  away_team : String
  time : PyVal
  is_live : Bool
  status : PyVal
  sport_id : PyVal
  main_odds : MainOdds
deriving DecidableEq

def mkMatchData (e : RawEvent) : MatchRec :=
  { event_id := e.i
  , teams := (e.hn.getD "") ++ " vs " ++ (e.an.getD "")
  , home_team := e.hn.getD ""
  , away_team := e.an.getD ""
  , time := e.d.getD (.pyStr "")
  , is_live := e.il.getD false
  , status := e.s.getD (.pyStr "")
  , sport_id := e.sid.getD (.pyStr "")
  , main_odds := extractMainOdds (e.m.getD []) }

/-- Python truthiness of the limit argument: None and 0 are falsy. -/
def pyTruthyOptInt : Option Int → Bool
  | none => false
  | some n => n != 0

/-- The event loop of _process_matches_data (lines 355-376), with the
accumulated matches list made explicit: skip non-live events when
live_only is set, append the processed event, and break as soon as a
truthy limit is reached (the check len(matches) >= limit of line 375 runs
after the append). -/
def buildMatches : List RawEvent → List MatchRec → Option Int → Bool → List MatchRec
  | [], acc, _, _ => acc
  | e :: rest, acc, limit, liveOnly =>
    if liveOnly && !(e.il.getD false) then buildMatches rest acc limit liveOnly
    else
      let acc2 := acc ++ [mkMatchData e]
      if pyTruthyOptInt limit && (limit.getD 0 ≤ (acc2.length : Int)) then acc2
      else buildMatches rest acc2 limit liveOnly

/-- The dictionary returned by _process_matches_data: a success record
(lines 378-384) or the failure record of lines 346-350. -/
inductive MatchesResult where
  | ok (total_matches : Nat) (timestamp : String) (matchItems : List MatchRec) (cached : Bool)
  | err (error : String) (timestamp : String)
deriving DecidableEq

def MatchesResult.success : MatchesResult → Bool
  | .ok _ _ _ _ => true
  | .err _ _ => false

def MatchesResult.matchesList : MatchesResult → List MatchRec
  | .ok _ _ ms _ => ms
  | .err _ _ => []

/-- _process_matches_data (lines 342-391).  nowIso is the
datetime.now().isoformat() sample taken while building the result
dictionary. -/
def processMatchesData (apiData : RawMatchesPayload) (limit : Option Int)
    (liveOnly : Bool) (nowIso : String) : MatchesResult :=
  if apiData.isSuccess = false ∨ apiData.data = none then
    .err "Invalid API response format" nowIso
  else
    let events := ((apiData.data.getD {}).events).getD []
    let ms := buildMatches events [] limit liveOnly
    .ok ms.length nowIso ms false

/-- Outcome of one HTTP request as seen by a fetcher: a parsed 200 body, a
non-200 status, a 200 body that fails JSON decoding, or a raised transport
exception. -/
inductive HttpOutcome (β : Type) where
  | ok (body : β)
  | httpError (code : Int) (reason : String)
  | badJson (msg : String)
  | exn (msg : String)
deriving DecidableEq

/-- Python str() of the limit argument inside the cache-key f-string. -/
def pyStrOptInt : Option Int → String
  | none => "None"
  | some n => pyStrInt n

def pyStrBool : Bool → String
  | true => "True"
  | false => "False"

/-- The f-string cache key of line 109. -/
def matchesCacheKey (limit : Option Int) (liveOnly : Bool) : String :=
  "matches_" ++ pyStrOptInt limit ++ "_" ++ pyStrBool liveOnly

/-- get_matches (lines 98-170) as a state transformer on the cache.
nowCheck and nowStore are the two time.time() samples (cache check, cache
store); nowIso the datetime.now() sample; outcome the transport result.
On a fresh cache hit the request is never issued and the cached value is
returned; on a 200 body the processed result is stored unconditionally;
non-200 statuses and exceptions (including JSON decode errors, caught by
the generic handler of line 165) build failure records and leave the cache
untouched. -/
def getMatches (cache : Cache MatchesResult) (cacheDuration : Rat)
    (limit : Option Int) (liveOnly : Bool) (nowCheck : Rat)
    (outcome : HttpOutcome RawMatchesPayload) (nowStore : Rat) (nowIso : String) :
    MatchesResult × Cache MatchesResult :=
  let key := matchesCacheKey limit liveOnly
  match cacheGet cache key cacheDuration nowCheck with
  | some cached => (cached, cache)
  | none =>
    match outcome with
    | .ok body =>
      let processed := processMatchesData body limit liveOnly nowIso
      (processed, cachePut cache key processed nowStore)
    | .httpError code reason =>
      (.err ("HTTP " ++ pyStrInt code ++ ": " ++ reason) nowIso, cache)
    | .badJson msg => (.err ("API request failed: " ++ msg) nowIso, cache)
    | .exn msg => (.err ("API request failed: " ++ msg) nowIso, cache)

/-- The market_descriptions exact-match table of lines 421-490, keyed by
the f-string "{market_type}.{market_sub_type}".  Templated entries
substitute the special odd value when it is truthy, else the fixed
fallback literal (Python's special_odd_value or 'd' inside the f-string). -/
def marketDescriptions (key : String) (sov : PyVal) : Option String :=
  let sv (d : String) : String := if pyTruthy sov then pyToStr sov else d
  match key with
  | "1.1" => some "1X2 - Match Result"
  | "1.2" => some "1X2 - First Half"
  | "1.3" => some "1X2 - Second Half"
  | "2.92" => some "Double Chance"
  | "2.719" => some "Odd/Even Total Goals"
  | "2.720" => some "Both Teams to Score"
  | "2.604" => some ("Total Goals Over/Under " ++ sv "2.5")
  | "2.605" => some "Total Goals Over/Under 1.5"
  | "2.606" => some "Total Goals Over/Under 3.5"
  | "2.607" => some "Total Goals Over/Under 0.5"
  | "2.608" => some "Total Goals Over/Under 4.5"
  | "2.85" => some "First Half 1X2"
  | "2.88" => some "1X2 - Match Result (Alternative)"
  | "2.36" => some "1X2 - Second Half"
  | "2.77" => some "Double Chance (Alternative)"
  | "2.91" => some "Odd/Even (Alternative)"
  | "2.89" => some "Both Teams to Score (Alternative)"
  | "2.84" => some "First Half - 1X2"
  | "2.4" => some "Goal Intervals (0-1/2-3/4-5/6+)"
  | "2.821" => some "Both Teams to Score (Extended)"
  | "2.730" => some "Team Clean Sheet"
  | "2.729" => some "Win Either Half"
  | "2.698" => some "1X2 & Both Teams Score"
  | "2.699" => some "1X2 & Total Goals"
  | "2.6" => some "First Half 1X2"
  | "2.1" => some ("Match Result & Total Over/Under " ++ sv "2.5")
  | "3.1" => some "Correct Score"
  | "3.2" => some "Correct Score - First Half"
  | "4.1" => some ("Asian Handicap " ++ sv "0")
  | "4.2" => some ("Asian Handicap - First Half " ++ sv "0")
  | "5.1" => some "Draw No Bet"
  | "5.2" => some "Draw No Bet - First Half"
  | "6.1" => some ("European Handicap " ++ sv "0")
  | "6.2" => some ("European Handicap - First Half " ++ sv "0")
  | "7.1" => some "Win to Nil"
  | "8.1" => some ("Home Team Total Goals Over/Under " ++ sv "1.5")
  | "8.2" => some ("Away Team Total Goals Over/Under " ++ sv "1.5")
  | "9.1" => some "First Goal Scorer"
  | "9.2" => some "Last Goal Scorer"
  | "9.3" => some "Anytime Goal Scorer"
  | "10.1" => some "Half Time / Full Time"
  | "11.1" => some ("Corners Over/Under " ++ sv "9.5")
  | "11.2" => some ("Corners Handicap " ++ sv "0")
  | "12.1" => some ("Cards Over/Under " ++ sv "3.5")
  | "12.2" => some ("Cards Handicap " ++ sv "0")
  | _ => none

/-- The subtype_patterns fallback table of lines 508-523.  As in the
Python dict-membership test, only a sub-type whose value is exactly one of
the string keys is a member; an integer sub-type never matches. -/
def subtypePatterns (st : PyVal) : Option String :=
  if st = .pyStr "85" then some "First Half 1X2"
  else if st = .pyStr "88" then some "1X2 Alternative"
  else if st = .pyStr "36" then some "Second Half 1X2"
  else if st = .pyStr "77" then some "Double Chance"
  else if st = .pyStr "91" then some "Odd/Even"
  else if st = .pyStr "89" then some "Both Teams to Score"
  else if st = .pyStr "84" then some "First Half Result"
  else if st = .pyStr "4" then some "Goal Intervals"
  else if st = .pyStr "821" then some "Both Teams to Score Extended"
  else if st = .pyStr "730" then some "Team Clean Sheet"
  else if st = .pyStr "729" then some "Win Either Half"
  else if st = .pyStr "698" then some "1X2 & Both Teams Score Combo"
  else if st = .pyStr "699" then some "1X2 & Total Goals Combo"
  else if st = .pyStr "6" then some "First Half 1X2"
  else none

/-- The main_type_descriptions lookup of lines 529-547, applied to
str(market_type), with the f-string default of line 547. -/
def mainTypeDescription (t : PyVal) : String :=
  match pyToStr t with
  | "1" => "Match Result Markets"
  | "2" => "Goals and Statistics"
  | "3" => "Correct Score"
  | "4" => "Asian Handicap"
  | "5" => "Draw No Bet"
  | "6" => "European Handicap"
  | "7" => "Win to Nil"
  | "8" => "Team Total Goals"
  | "9" => "Goal Scorers"
  | "10" => "Half Time / Full Time"
  | "11" => "Corners"
  | "12" => "Cards"
  | "13" => "Specials"
  | "14" => "Player Props"
  | "15" => "Team Props"
  | _ => "Market Type " ++ pyToStr t

/-- The final fallback tier of lines 528-552: the main-type description
plus either the special odd value or the raw sub-type code. -/
def mainTypeFallback (market_type market_sub_type special_odd_value : PyVal) : String :=
  let main_desc := mainTypeDescription market_type
  if pyTruthy special_odd_value then
    main_desc ++ " (" ++ pyToStr special_odd_value ++ ")"
  else
    main_desc ++ "." ++ pyToStr market_sub_type

/-- _get_market_description (lines 416-552).  The two generator tests of
lines 500-503 iterate over the one-element list containing the empty
string and are therefore always False, so a truthy special value always
reaches the else branch of line 504; the type-2 tier is guarded by the
Python test market_type == "2", which an integer type code never passes. -/
def getMarketDescription (market_type market_sub_type special_odd_value : PyVal) : String :=
  let market_key := pyToStr market_type ++ "." ++ pyToStr market_sub_type
  match marketDescriptions market_key special_odd_value with
  | some d => d
  | none =>
    if pyEq market_type (.pyStr "2") then
      if pyTruthy special_odd_value then
        "Goals & Statistics (" ++ pyToStr special_odd_value ++ ")"
      else
        match subtypePatterns market_sub_type with
        | some d => d
        | none => mainTypeFallback market_type market_sub_type special_odd_value
    else mainTypeFallback market_type market_sub_type special_odd_value

/-- The six market categories of _categorize_market. -/
inductive MarketCategory where
  | main_markets
  | goals_markets
  | handicap_markets
  | player_markets
  | events_markets
  | other_markets
deriving DecidableEq

/-- _categorize_market (lines 554-579): str() the type code, then test
membership in five fixed string lists; everything else is other_markets.
The market_sub_type parameter is accepted and unused, as in the source. -/
def categorizeMarket (market_type : PyVal) (market_sub_type : PyVal) : MarketCategory :=
  let s := pyToStr market_type
  if s ∈ ["1", "5", "10"] then .main_markets
  else if s ∈ ["2", "3", "8"] then .goals_markets
  else if s ∈ ["4", "6"] then .handicap_markets
  else if s ∈ ["7", "9", "14", "15"] then .player_markets
  else if s ∈ ["11", "12", "13"] then .events_markets
  else .other_markets

/-- The selection_info dictionary of lines 625-631. -/
structure SelectionInfo where
  selection_no : Option Int
  name : PyVal
  odd : Option PyVal
  winning_odd : Option PyVal
  status : PyVal
deriving DecidableEq

def mkSelectionInfo (o : RawSelection) : SelectionInfo :=
  { selection_no := o.no
  , name := o.n.getD (.pyStr "")
  , odd := o.odd
  , winning_odd := o.wodd
  , status := o.s.getD (.pyStr "") }

/-- The market_info dictionary of lines 610-632. -/
structure MarketInfo where
  market_id : Option PyVal
  market_type : PyVal
  market_sub_type : PyVal
  market_description : String
  market_category : MarketCategory
  status : PyVal
  version : PyVal
  special_odd_value : PyVal
  selections : List SelectionInfo
deriving DecidableEq

def mkMarketInfo (mkt : RawMarket) : MarketInfo :=
  let market_type := mkt.t.getD (.pyStr "")
  let market_sub_type := mkt.st.getD (.pyStr "")
  let special_odd_value := mkt.sov.getD (.pyStr "")
  { market_id := mkt.i
  , market_type := market_type
  , market_sub_type := market_sub_type
  , market_description := getMarketDescription market_type market_sub_type special_odd_value
  , market_category := categorizeMarket market_type market_sub_type
  , status := mkt.s.getD (.pyStr "")
  , version := mkt.v.getD (.pyStr "")
  , special_odd_value := special_odd_value
  , selections := (mkt.o.getD []).map mkSelectionInfo }

/-- The event_info header dictionary of lines 588-598. -/
structure EventInfoHeader where
  name : String
  home_team : String
  away_team : String
  start_time : PyVal
  status : PyVal
  is_live : Bool
  sport_id : PyVal
  event_id : PyVal
  match_bet_count : Int
deriving DecidableEq

/-- The success dictionary built by _process_detailed_event (581-636). -/
structure DetailOk where
  success : Bool
  event_id : String
  timestamp : String
  event_info : EventInfoHeader
  markets_count : Nat
  betting_markets : List MarketInfo
deriving DecidableEq

/-- The try block of _process_detailed_event (lines 583-636): the success
record built from a well-shaped event object.  nowIso is the
datetime.now().isoformat() sample of line 587. -/
def processDetailedEventBody (ed : RawEvent) (eventId : String) (nowIso : String) : DetailOk :=
  { success := true
  , event_id := eventId
  , timestamp := nowIso
  , event_info :=
    { name := (ed.hn.getD "") ++ " vs " ++ (ed.an.getD "")
    , home_team := ed.hn.getD ""
    , away_team := ed.an.getD ""
    , start_time := ed.d.getD (.pyStr "")
    , status := ed.s.getD (.pyStr "")
    , is_live := ed.il.getD false
    , sport_id := ed.sid.getD (.pyStr "")
    , event_id := ed.i.getD (.pyStr "")
    , match_bet_count := ed.mbc.getD 0 }
  , markets_count := (ed.m.getD []).length
  , betting_markets := (ed.m.getD []).map mkMarketInfo }

/-- The value bound to the data key of the detail payload: an event
object of the shape the try block expects, or any other value, whose
processing raises (the .get calls fail on a non-dict) and lands in the
except branch of lines 638-644; msg models str(e) of the raised
exception. -/
inductive RawDetailData where
  | wellFormed (ed : RawEvent)
  | malformed (msg : String)
deriving DecidableEq

/-- The dictionaries returned by get_event_details: the processed success
record, the processing-failure record of the except branch of lines
638-644 (which carries the raw data), the unsuccessful-payload record of
lines 233-238, the non-200 record of lines 240-244, and the exception
record of lines 247-251. -/
inductive DetailResult where
  | ok (r : DetailOk)
  | errProcessing (error : String) (event_id : String) (raw_data : RawDetailData)
  | errUpstream (error : String) (event_id : String) (api_response : String)
  | errHttp (error : String) (event_id : String)
  | errNetwork (error : String) (event_id : String)
deriving DecidableEq

def DetailResult.success : DetailResult → Bool
  | .ok _ => true
  | _ => false

/-- _process_detailed_event (lines 581-644): the try block builds the
success record; a malformed data value raises and the except branch of
lines 638-644 returns a success=False record carrying the error message
and the raw data. -/
def processDetailedEvent (ed : RawDetailData) (eventId : String) (nowIso : String) :
    DetailResult :=
  match ed with
  | .wellFormed ev => .ok (processDetailedEventBody ev eventId nowIso)
  | .malformed msg =>
    .errProcessing ("Error processing detailed event: " ++ msg) eventId (.malformed msg)

/-- The top-level event-detail payload: isSuccess flag, optional data
value (possibly malformed), optional message string. -/
structure RawDetailPayload where
  isSuccess : Bool := false
  data : Option RawDetailData := none
  message : Option String := none
deriving DecidableEq

/-- The f-string cache key of line 183. -/
def detailsCacheKey (eventId : String) : String := "event_details_" ++ eventId

/-- get_event_details (lines 172-251) as a state transformer on the cache.
The cache is consulted only when use_cache is set; behind the isSuccess
gate the _process_detailed_event result is stored whenever use_cache is
set, whether or not processing succeeded — the except branch's failure
record is cached like any other processing result (lines 221-228).  A
JSON decode error raises and is caught by the generic handler of line
246. -/
def getEventDetails (cache : Cache DetailResult) (detailCacheDuration : Rat)
    (eventId : String) (useCache : Bool) (nowCheck : Rat)
    (outcome : HttpOutcome RawDetailPayload) (nowStore : Rat) (nowIso : String) :
    DetailResult × Cache DetailResult :=
  let key := detailsCacheKey eventId
  match (if useCache then cacheGet cache key detailCacheDuration nowCheck else none) with
  | some cached => (cached, cache)
  | none =>
    match outcome with
    | .ok body =>
      if body.isSuccess ∧ body.data ≠ none then
        let result := processDetailedEvent (body.data.getD (.wellFormed {})) eventId nowIso
        (result, if useCache then cachePut cache key result nowStore else cache)
      else
        (.errUpstream "API returned unsuccessful response" eventId
          (body.message.getD "Unknown error"), cache)
    | .httpError code reason =>
      (.errHttp ("HTTP " ++ pyStrInt code ++ ": " ++ reason) eventId, cache)
    | .badJson msg => (.errNetwork ("Network error: " ++ msg) eventId, cache)
    | .exn msg => (.errNetwork ("Network error: " ++ msg) eventId, cache)

/-- A raw dictionary value as tested by the statistics pipeline with both
the key-in test and truthiness: the key is absent, or present with a falsy
value (empty dict / None), or present with a truthy value. -/
inductive RawOpt (α : Type) where
  | absent
  | emptyVal
  | val (a : α)
deriving DecidableEq

/-- A team object inside eventInformationModel.  An absent nested dict
behaves exactly like a present dict with no keys, so both are modelled by
the all-none record. -/
structure RawTeamRef where
  id : Option PyVal := none
  name : Option PyVal := none
  shortName : Option PyVal := none
  logo : Option PyVal := none
deriving DecidableEq

structure RawNameInfo where
  id : Option PyVal := none
  name : Option PyVal := none
  shortName : Option PyVal := none
deriving DecidableEq

structure RawStatusInfo where
  id : Option PyVal := none
  name : Option PyVal := none
deriving DecidableEq

structure RawPlaceInfo where
  stadiumName : Option PyVal := none
  temperatureC : Option PyVal := none
  weatherStatus : Option PyVal := none
deriving DecidableEq

structure RawEventInfoModel where
  eventId : Option PyVal := none
  eventDate : Option PyVal := none
  homeTeam : RawTeamRef := {}
  awayTeam : RawTeamRef := {}
  tournamentInformation : RawNameInfo := {}
  roundInformation : RawNameInfo := {}
  statusInformation : RawStatusInfo := {}
  eventPlaceInformation : RawPlaceInfo := {}
deriving DecidableEq

structure RawStandingsSeason where
  tournamentName : Option PyVal := none
  name : Option PyVal := none
  overAll : List PyVal := []
  homeTeam : List PyVal := []
  awayTeam : List PyVal := []
deriving DecidableEq

structure RawRecentEventModel where
  overall : List PyVal := []
  homeTeam : List PyVal := []
  awayTeam : List PyVal := []
deriving DecidableEq

structure RawTeamIdName where
  id : Option PyVal := none
  name : Option PyVal := none
deriving DecidableEq

structure RawLastEventModel where
  homeTeam : RawTeamIdName := {}
  awayTeam : RawTeamIdName := {}
  homeOverAll : List PyVal := []
  awayOverAll : List PyVal := []
deriving DecidableEq

structure RawIddaaModel where
  generalInformations : List PyVal := []
  bettingAnalysis : List PyVal := []
deriving DecidableEq

structure RawReferee where
  id : Option Int := none
  age : Option PyVal := none
  country : Option PyVal := none
deriving DecidableEq

structure RawRefereePageModel where
  referee : RawReferee := {}
  refereeTournaments : List PyVal := []
  refereeMatches : List PyVal := []
deriving DecidableEq

structure RawLeagueRow where
  position : Option PyVal := none
  teamName : Option PyVal := none
  played : Option PyVal := none
  won : Option PyVal := none
  drawn : Option PyVal := none
  lost : Option PyVal := none
  goalsFor : Option PyVal := none
  goalsAgainst : Option PyVal := none
  goalDifference : Option PyVal := none
  points : Option PyVal := none
deriving DecidableEq

structure RawLeagueTableModel where
  homeTeamPosition : Option PyVal := none
  awayTeamPosition : Option PyVal := none
  leagueTable : List RawLeagueRow := []
deriving DecidableEq

structure RawH2HMatch where
  matchDate : Option PyVal := none
  homeTeamName : Option PyVal := none
  awayTeamName : Option PyVal := none
  homeTeamScore : Option PyVal := none
  awayTeamScore : Option PyVal := none
  tournamentName : Option PyVal := none
deriving DecidableEq

structure RawHeadToHeadModel where
  totalMatches : Option PyVal := none
  homeTeamWins : Option PyVal := none
  awayTeamWins : Option PyVal := none
  draws : Option PyVal := none
  headToHeadMatches : List RawH2HMatch := []
deriving DecidableEq

structure RawFormMatch where
  matchDate : Option PyVal := none
  opponentName : Option PyVal := none
  result : Option PyVal := none
  homeScore : Option PyVal := none
  awayScore : Option PyVal := none
  homeAway : Option PyVal := none
  tournamentName : Option PyVal := none
deriving DecidableEq

structure RawRecentFormModel where
  homeTeamForm : List RawFormMatch := []
  awayTeamForm : List RawFormMatch := []
deriving DecidableEq

structure RawOddsTriple where
  home : Option PyVal := none
  draw : Option PyVal := none
  away : Option PyVal := none
deriving DecidableEq

structure RawBettingAnalysisModel where
  openingOdds : RawOddsTriple := {}
  currentOdds : RawOddsTriple := {}
  oddsMovement : List PyVal := []
deriving DecidableEq

structure RawRefereeInformation where
  refereeName : Option PyVal := none
  nationality : Option PyVal := none
  totalMatches : Option PyVal := none
  avgYellowCards : Option PyVal := none
  avgRedCards : Option PyVal := none
  avgPenalties : Option PyVal := none
deriving DecidableEq

structure RawTeamStrength where
  attackStrength : Option PyVal := none
  defenseStrength : Option PyVal := none
  recentFormPoints : Option PyVal := none
  avgGoalsScored : Option PyVal := none
  avgGoalsConceded : Option PyVal := none
  homeAdvantage : Option PyVal := none
  awayPerformance : Option PyVal := none
deriving DecidableEq

structure RawTeamStatisticsModel where
  homeTeam : RawTeamStrength := {}
  awayTeam : RawTeamStrength := {}
deriving DecidableEq

/-- The raw statistics payload data object, one field per model key the
pipeline inspects.  List-valued models collapse present-falsy into
val with an empty list where the source only tests truthiness together
with emptiness. -/
structure RawStatsData where
  eventInformationModel : RawOpt RawEventInfoModel := .absent
  tournamentStandingsModel : RawOpt (List RawStandingsSeason) := .absent
  recentEventModel : RawOpt RawRecentEventModel := .absent
  lastEventModel : RawOpt RawLastEventModel := .absent
  soccerIddaaAnalysModel : RawOpt RawIddaaModel := .absent
  soccerRefereePageModel : RawOpt RawRefereePageModel := .absent
  leagueTableModel : RawOpt RawLeagueTableModel := .absent
  headToHeadModel : RawOpt RawHeadToHeadModel := .absent
  recentFormModel : RawOpt RawRecentFormModel := .absent
  bettingAnalysisModel : RawOpt RawBettingAnalysisModel := .absent
  refereeInformation : RawOpt RawRefereeInformation := .absent
  teamStatisticsModel : RawOpt RawTeamStatisticsModel := .absent
deriving DecidableEq

/-- The value of a sub-section key in the statistics result: either the
empty dict it is initialised to at lines 649-660, or the record a later
block assigned over it. -/
inductive SubRec (α : Type) where
  | emptyDict
  | filled (a : α)
deriving DecidableEq

structure TeamRefRec where
  id : Option PyVal
  name : Option PyVal
  short_name : Option PyVal
  logo : Option PyVal
deriving DecidableEq

structure NameInfoRec where
  id : Option PyVal
  name : Option PyVal
  short_name : Option PyVal
deriving DecidableEq

structure StatusRec where
  id : Option PyVal
  name : Option PyVal
deriving DecidableEq

structure VenueRec where
  stadium : Option PyVal
  temperature : Option PyVal
  weather : Option PyVal
deriving DecidableEq

/-- The event_info record of lines 665-699. -/
structure EventInfoRec where
  event_id : Option PyVal
  event_date : Option PyVal
  home_team : TeamRefRec
  away_team : TeamRefRec
  tournament : NameInfoRec
  round : NameInfoRec
  status : StatusRec
  venue : VenueRec
deriving DecidableEq

/-- The tournament_standings record of lines 705-711. -/
structure StandingsFromSeason where
  tournament_name : Option PyVal
  season : Option PyVal
  overall_table : List PyVal
  home_table : List PyVal
  away_table : List PyVal
deriving DecidableEq

structure LeagueRowRec where
  position : Option PyVal
  team_name : Option PyVal
  played : Option PyVal
  won : Option PyVal
  drawn : Option PyVal
  lost : Option PyVal
  goals_for : Option PyVal
  goals_against : Option PyVal
  goal_difference : Option PyVal
  points : Option PyVal
deriving DecidableEq

/-- The tournament_standings record of lines 764-783. -/
structure StandingsFromLeague where
  home_team_position : Option PyVal
  away_team_position : Option PyVal
  league_table : List LeagueRowRec
deriving DecidableEq

/-- tournament_standings is written by two distinct blocks with two
distinct shapes; the later leagueTableModel block overwrites the earlier
one. -/
inductive TSRec where
  | fromSeason (r : StandingsFromSeason)
  | fromLeague (r : StandingsFromLeague)
deriving DecidableEq

/-- The head_to_head record of lines 717-721. -/
structure H2HFromRecent where
  overall_matches : List PyVal
  home_team_matches : List PyVal
  away_team_matches : List PyVal
deriving DecidableEq

structure H2HMatchRec where
  date : Option PyVal
  home_team : Option PyVal
  away_team : Option PyVal
  score : String
  tournament : Option PyVal
deriving DecidableEq

/-- The head_to_head record of lines 788-804. -/
structure H2HFromModel where
  total_matches : Option PyVal
  home_team_wins : Option PyVal
  away_team_wins : Option PyVal
  draws : Option PyVal
  recent_matches : List H2HMatchRec
deriving DecidableEq

inductive H2HRec where
  | fromRecentEvent (r : H2HFromRecent)
  | fromModel (r : H2HFromModel)
deriving DecidableEq

structure FormTeamRec where
  id : Option PyVal
  name : Option PyVal
  recent_matches : List PyVal
deriving DecidableEq

/-- The recent_form record of lines 727-738 (the only sub-section key that
is created, rather than overwritten, by its block). -/
structure RecentFormRec where
  home_team : FormTeamRec
  away_team : FormTeamRec
deriving DecidableEq

structure FormMatchRec where
  date : Option PyVal
  opponent : Option PyVal
  result : Option PyVal
  score : String
  home_away : Option PyVal
  tournament : Option PyVal
deriving DecidableEq

/-- The recent_matches record of lines 809-834. -/
structure RecentMatchesRec where
  home_team_form : List FormMatchRec
  away_team_form : List FormMatchRec
deriving DecidableEq

/-- The betting_analysis record of lines 744-747. -/
structure BettingFromIddaa where
  general_info : List PyVal
  market_analysis : List PyVal
deriving DecidableEq

structure OddsTripleRec where
  home : Option PyVal
  draw : Option PyVal
  away : Option PyVal
deriving DecidableEq

/-- The betting_analysis record of lines 839-851. -/
structure BettingFromModel where
  opening_odds : OddsTripleRec
  current_odds : OddsTripleRec
  odds_movement : List PyVal
deriving DecidableEq

inductive BettingRec where
  | fromIddaa (r : BettingFromIddaa)
  | fromModel (r : BettingFromModel)
deriving DecidableEq

/-- The referee_info record of lines 753-759. -/
structure RefereeFromPage where
  id : Option Int
  age : Option PyVal
  country : Option PyVal
  tournaments : List PyVal
  recent_matches : List PyVal
deriving DecidableEq

structure RefExperienceRec where
  total_matches : Option PyVal
  yellow_cards_per_match : Option PyVal
  red_cards_per_match : Option PyVal
  penalties_per_match : Option PyVal
deriving DecidableEq

/-- The referee_info record of lines 856-865. -/
structure RefereeFromInformation where
  name : Option PyVal
  nationality : Option PyVal
  experience : RefExperienceRec
deriving DecidableEq

inductive RefereeRec where
  | fromPage (r : RefereeFromPage)
  | fromInformation (r : RefereeFromInformation)
deriving DecidableEq

structure HomeTeamStatsRec where
  attack_strength : Option PyVal
  defense_strength : Option PyVal
  recent_form_points : Option PyVal
  avg_goals_scored : Option PyVal
  avg_goals_conceded : Option PyVal
  home_advantage : Option PyVal
deriving DecidableEq

structure AwayTeamStatsRec where
  attack_strength : Option PyVal
  defense_strength : Option PyVal
  recent_form_points : Option PyVal
  avg_goals_scored : Option PyVal
  avg_goals_conceded : Option PyVal
  away_performance : Option PyVal
deriving DecidableEq

/-- The team_stats record of lines 870-887. -/
structure TeamStatsRec where
  home_team : HomeTeamStatsRec
  away_team : AwayTeamStatsRec
deriving DecidableEq

/-- The statistics result dictionary.  Every key initialised at lines
649-660 is always present (sub-sections as SubRec values); the recent_form
key is present exactly when the field is some. -/
structure StatsOk where
  success : Bool
  event_id : String
  timestamp : String
  event_info : SubRec EventInfoRec
  tournament_standings : SubRec TSRec
  head_to_head : SubRec H2HRec
  recent_matches : SubRec RecentMatchesRec
  betting_analysis : SubRec BettingRec
  referee_info : SubRec RefereeRec
  team_stats : SubRec TeamStatsRec
  recent_form : Option RecentFormRec
deriving DecidableEq

/-- The key set of the statistics result dictionary. -/
def StatsOk.keys (r : StatsOk) : List String :=
  ["success", "event_id", "timestamp", "event_info", "tournament_standings",
   "head_to_head", "recent_matches", "betting_analysis", "referee_info",
   "team_stats"] ++ (if r.recent_form.isSome then ["recent_form"] else [])

/-- The result dictionary as initialised at lines 649-660: success True,
every sub-section key bound to an empty dict, no recent_form key. -/
def initStats (eventId : String) (nowIso : String) : StatsOk :=
  { success := true
  , event_id := eventId
  , timestamp := nowIso
  , event_info := .emptyDict
  , tournament_standings := .emptyDict
  , head_to_head := .emptyDict
  , recent_matches := .emptyDict
  , betting_analysis := .emptyDict
  , referee_info := .emptyDict
  , team_stats := .emptyDict
  , recent_form := none }

def mkTeamRefRec (t : RawTeamRef) : TeamRefRec :=
  { id := t.id, name := t.name, short_name := t.shortName, logo := t.logo }

def mkNameInfoRec (t : RawNameInfo) : NameInfoRec :=
  { id := t.id, name := t.name, short_name := t.shortName }

def mkEventInfoRec (e : RawEventInfoModel) : EventInfoRec :=
  { event_id := e.eventId
  , event_date := e.eventDate
  , home_team := mkTeamRefRec e.homeTeam
  , away_team := mkTeamRefRec e.awayTeam
  , tournament := mkNameInfoRec e.tournamentInformation
  , round := mkNameInfoRec e.roundInformation
  , status := { id := e.statusInformation.id, name := e.statusInformation.name }
  , venue :=
    { stadium := e.eventPlaceInformation.stadiumName
    , temperature := e.eventPlaceInformation.temperatureC
    , weather := e.eventPlaceInformation.weatherStatus } }

/-- Lines 662-699: populate event_info when eventInformationModel is
present and truthy. -/
def applyEventInfo (d : RawStatsData) (r : StatsOk) : StatsOk :=
  match d.eventInformationModel with
  | .val e => { r with event_info := .filled (mkEventInfoRec e) }
  | _ => r

/-- Lines 701-711: populate tournament_standings from
tournamentStandingsModel when the key exists and holds a nonempty list;
the head element of the list supplies all fields. -/
def applyStandingsSeason (d : RawStatsData) (r : StatsOk) : StatsOk :=
  match d.tournamentStandingsModel with
  | .val (s0 :: _) =>
    { r with tournament_standings := .filled (.fromSeason
      { tournament_name := s0.tournamentName
      , season := s0.name
      , overall_table := s0.overAll
      , home_table := s0.homeTeam
      , away_table := s0.awayTeam }) }
  | _ => r

/-- Lines 713-721: populate head_to_head from recentEventModel. -/
def applyRecentEvent (d : RawStatsData) (r : StatsOk) : StatsOk :=
  match d.recentEventModel with
  | .val h =>
    { r with head_to_head := .filled (.fromRecentEvent
      { overall_matches := h.overall
      , home_team_matches := h.homeTeam
      , away_team_matches := h.awayTeam }) }
  | _ => r

/-- Lines 723-738: create the recent_form key from lastEventModel. -/
def applyLastEvent (d : RawStatsData) (r : StatsOk) : StatsOk :=
  match d.lastEventModel with
  | .val f =>
    { r with recent_form := some (
      { home_team := { id := f.homeTeam.id, name := f.homeTeam.name
                     , recent_matches := f.homeOverAll }
      , away_team := { id := f.awayTeam.id, name := f.awayTeam.name
                     , recent_matches := f.awayOverAll } } : RecentFormRec) }
  | _ => r

/-- Lines 740-747: populate betting_analysis from soccerIddaaAnalysModel. -/
def applyIddaa (d : RawStatsData) (r : StatsOk) : StatsOk :=
  match d.soccerIddaaAnalysModel with
  | .val b =>
    { r with betting_analysis := .filled (.fromIddaa
      { general_info := b.generalInformations
      , market_analysis := b.bettingAnalysis }) }
  | _ => r

/-- Lines 749-759: populate referee_info from soccerRefereePageModel, but
only when the referee id (default 0) is positive. -/
def applyRefereePage (d : RawStatsData) (r : StatsOk) : StatsOk :=
  match d.soccerRefereePageModel with
  | .val p =>
    if 0 < p.referee.id.getD 0 then
      { r with referee_info := .filled (.fromPage
        { id := p.referee.id
        , age := p.referee.age
        , country := p.referee.country
        , tournaments := p.refereeTournaments
        , recent_matches := p.refereeMatches }) }
    else r
  | _ => r

def mkLeagueRowRec (t : RawLeagueRow) : LeagueRowRec :=
  { position := t.position
  , team_name := t.teamName
  , played := t.played
  , won := t.won
  , drawn := t.drawn
  , lost := t.lost
  , goals_for := t.goalsFor
  , goals_against := t.goalsAgainst
  , goal_difference := t.goalDifference
  , points := t.points }

/-- Lines 761-783: populate tournament_standings from leagueTableModel,
overwriting whatever the tournamentStandingsModel block put there. -/
def applyLeagueTable (d : RawStatsData) (r : StatsOk) : StatsOk :=
  match d.leagueTableModel with
  | .val t =>
    { r with tournament_standings := .filled (.fromLeague
      { home_team_position := t.homeTeamPosition
      , away_team_position := t.awayTeamPosition
      , league_table := t.leagueTable.map mkLeagueRowRec }) }
  | _ => r

def mkH2HMatchRec (m : RawH2HMatch) : H2HMatchRec :=
  { date := m.matchDate
  , home_team := m.homeTeamName
  , away_team := m.awayTeamName
  , score := pyToStr (m.homeTeamScore.getD .pyNone) ++ "-"
      ++ pyToStr (m.awayTeamScore.getD .pyNone)
  , tournament := m.tournamentName }

/-- Lines 785-804: populate head_to_head from headToHeadModel, overwriting
whatever the recentEventModel block put there. -/
def applyHeadToHead (d : RawStatsData) (r : StatsOk) : StatsOk :=
  match d.headToHeadModel with
  | .val h =>
    { r with head_to_head := .filled (.fromModel
      { total_matches := h.totalMatches
      , home_team_wins := h.homeTeamWins
      , away_team_wins := h.awayTeamWins
      , draws := h.draws
      , recent_matches := h.headToHeadMatches.map mkH2HMatchRec }) }
  | _ => r

def mkFormMatchRec (m : RawFormMatch) : FormMatchRec :=
  { date := m.matchDate
  , opponent := m.opponentName
  , result := m.result
  , score := pyToStr (m.homeScore.getD .pyNone) ++ "-"
      ++ pyToStr (m.awayScore.getD .pyNone)
  , home_away := m.homeAway
  , tournament := m.tournamentName }

/-- Lines 806-834: populate recent_matches from recentFormModel. -/
def applyRecentForm (d : RawStatsData) (r : StatsOk) : StatsOk :=
  match d.recentFormModel with
  | .val f =>
    { r with recent_matches := .filled (
      { home_team_form := f.homeTeamForm.map mkFormMatchRec
      , away_team_form := f.awayTeamForm.map mkFormMatchRec } : RecentMatchesRec) }
  | _ => r

/-- Lines 836-851: populate betting_analysis from bettingAnalysisModel,
overwriting whatever the soccerIddaaAnalysModel block put there. -/
def applyBettingModel (d : RawStatsData) (r : StatsOk) : StatsOk :=
  match d.bettingAnalysisModel with
  | .val b =>
    { r with betting_analysis := .filled (.fromModel
      { opening_odds := { home := b.openingOdds.home, draw := b.openingOdds.draw
                        , away := b.openingOdds.away }
      , current_odds := { home := b.currentOdds.home, draw := b.currentOdds.draw
                        , away := b.currentOdds.away }
      , odds_movement := b.oddsMovement }) }
  | _ => r

/-- Lines 853-865: populate referee_info from refereeInformation,
overwriting whatever the soccerRefereePageModel block put there. -/
def applyRefereeInformation (d : RawStatsData) (r : StatsOk) : StatsOk :=
  match d.refereeInformation with
  | .val ri =>
    { r with referee_info := .filled (.fromInformation
      { name := ri.refereeName
      , nationality := ri.nationality
      , experience :=
        { total_matches := ri.totalMatches
        , yellow_cards_per_match := ri.avgYellowCards
        , red_cards_per_match := ri.avgRedCards
        , penalties_per_match := ri.avgPenalties } }) }
  | _ => r

/-- Lines 867-887: populate team_stats from teamStatisticsModel. -/
def applyTeamStats (d : RawStatsData) (r : StatsOk) : StatsOk :=
  match d.teamStatisticsModel with
  | .val ts =>
    { r with team_stats := .filled (
      { home_team :=
        { attack_strength := ts.homeTeam.attackStrength
        , defense_strength := ts.homeTeam.defenseStrength
        , recent_form_points := ts.homeTeam.recentFormPoints
        , avg_goals_scored := ts.homeTeam.avgGoalsScored
        , avg_goals_conceded := ts.homeTeam.avgGoalsConceded
        , home_advantage := ts.homeTeam.homeAdvantage }
      , away_team :=
        { attack_strength := ts.awayTeam.attackStrength
        , defense_strength := ts.awayTeam.defenseStrength
        , recent_form_points := ts.awayTeam.recentFormPoints
        , avg_goals_scored := ts.awayTeam.avgGoalsScored
        , avg_goals_conceded := ts.awayTeam.avgGoalsConceded
        , away_performance := ts.awayTeam.awayPerformance } } : TeamStatsRec) }
  | _ => r

/-- The try block of _process_event_statistics (lines 648-889): the
initial dictionary of lines 649-660 followed by the twelve conditional
blocks in source order, on a well-shaped stats data object. -/
def processEventStatisticsBody (d : RawStatsData) (eventId : String) (nowIso : String) :
    StatsOk :=
  applyTeamStats d (applyRefereeInformation d (applyBettingModel d
    (applyRecentForm d (applyHeadToHead d (applyLeagueTable d
      (applyRefereePage d (applyIddaa d (applyLastEvent d
        (applyRecentEvent d (applyStandingsSeason d
          (applyEventInfo d (initStats eventId nowIso))))))))))))

/-- The value bound to the data key of the statistics payload: a stats
object of the shape the try block expects, or any other value, whose
processing raises and lands in the except branch of lines 891-897; msg
models str(e) of the raised exception. -/
inductive RawStatsInput where
  | wellFormed (d : RawStatsData)
  | malformed (msg : String)
deriving DecidableEq

/-- The dictionaries returned by get_event_statistics: the processed
success record, the processing-failure record of the except branch of
lines 891-897 (which carries the raw data), the unsuccessful-payload
record of lines 322-327, the non-200 record of lines 329-333, the
JSON-decode record of lines 302-306 and the exception record of lines
336-340. -/
inductive StatsResult where
  | ok (r : StatsOk)
  | errProcessing (error : String) (event_id : String) (raw_data : RawStatsInput)
  | errUpstream (error : String) (event_id : String) (api_response : String)
  | errHttp (error : String) (event_id : String)
  | errJson (error : String) (event_id : String)
  | errNetwork (error : String) (event_id : String)
deriving DecidableEq

def StatsResult.success : StatsResult → Bool
  | .ok _ => true
  | _ => false

/-- _process_event_statistics (lines 646-897): the try block builds the
success record; a malformed data value raises and the except branch of
lines 891-897 returns a success=False record carrying the error message
and the raw data. -/
def processEventStatistics (d : RawStatsInput) (eventId : String) (nowIso : String) :
    StatsResult :=
  match d with
  | .wellFormed dd => .ok (processEventStatisticsBody dd eventId nowIso)
  | .malformed msg =>
    .errProcessing ("Error processing event statistics: " ++ msg) eventId (.malformed msg)

/-- The top-level statistics payload: isSuccess flag, optional data value
(possibly malformed), optional message string. -/
structure RawStatsPayload where
  isSuccess : Bool := false
  data : Option RawStatsInput := none
  message : Option String := none
deriving DecidableEq

/-- The f-string cache key of line 264. -/
def statsCacheKey (eventId : String) : String := "event_stats_" ++ eventId

/-- get_event_statistics (lines 253-340) as a state transformer on the
cache, structured exactly like get_event_details: behind the isSuccess
gate the _process_event_statistics result is stored whenever use_cache is
set, whether or not processing succeeded (lines 308-317); a JSON decode
failure on a 200 response is reported by the dedicated handler of lines
301-306. -/
def getEventStatistics (cache : Cache StatsResult) (detailCacheDuration : Rat)
    (eventId : String) (useCache : Bool) (nowCheck : Rat)
    (outcome : HttpOutcome RawStatsPayload) (nowStore : Rat) (nowIso : String) :
    StatsResult × Cache StatsResult :=
  let key := statsCacheKey eventId
  match (if useCache then cacheGet cache key detailCacheDuration nowCheck else none) with
  | some cached => (cached, cache)
  | none =>
    match outcome with
    | .ok body =>
      if body.isSuccess ∧ body.data ≠ none then
        let result := processEventStatistics (body.data.getD (.wellFormed {})) eventId nowIso
        (result, if useCache then cachePut cache key result nowStore else cache)
      else
        (.errUpstream "API returned unsuccessful response" eventId
          (body.message.getD "Unknown error"), cache)
    | .httpError code reason =>
      (.errHttp ("HTTP " ++ pyStrInt code ++ ": " ++ reason) eventId, cache)
    | .badJson msg => (.errJson ("JSON parsing failed: " ++ msg) eventId, cache)
    | .exn msg => (.errNetwork ("Network error: " ++ msg) eventId, cache)

/-- The externally visible pacing steps of one fetch on the cache-miss
path, in program order. -/
inductive RequestStep where
  | rateWait
  | setLastRequest
  | randomDelay
  | httpRequest
deriving DecidableEq

/-- Pacing-step order of get_matches: _apply_rate_limit performs the
conditional wait (lines 57-60) and then sets self.last_request_time (line
62); the human-simulation random delay follows (lines 139-141) and then
the request is issued (line 143). -/
def getMatchesPacingTrace : List RequestStep :=
  [.rateWait, .setLastRequest, .randomDelay, .httpRequest]

/-- Pacing-step order of get_event_details: the inline enhanced rate-limit
wait (lines 197-202), the extra random delay (lines 209-211), the request
(line 213), then the update of self.last_request_time (line 214). -/
def getEventDetailsPacingTrace : List RequestStep :=
  [.rateWait, .randomDelay, .httpRequest, .setLastRequest]

/-- Pacing-step order of get_event_statistics (lines 277-295), identical
to get_event_details. -/
def getEventStatisticsPacingTrace : List RequestStep :=
  [.rateWait, .randomDelay, .httpRequest, .setLastRequest]

def HttpOutcome.isOk {β : Type} : HttpOutcome β → Bool
  | .ok _ => true
  | _ => false

/-- Erase the datetime.now() timestamp field of a matches result, keeping
everything else. -/
def MatchesResult.clearTimestamp : MatchesResult → MatchesResult
  | .ok n _ ms c => .ok n "" ms c
  | .err e _ => .err e ""

/-- Erase the datetime.now() timestamp field of a detailed-event result. -/
def DetailOk.clearTimestamp (r : DetailOk) : DetailOk := { r with timestamp := "" }

/-- Erase the datetime.now() timestamp field of a statistics result. -/
def StatsOk.clearTimestamp (r : StatsOk) : StatsOk := { r with timestamp := "" }

/-- Erase the timestamp of a detailed-event result; the error records
carry no timestamp and are left unchanged. -/
def DetailResult.clearTimestamp : DetailResult → DetailResult
  | .ok r => .ok r.clearTimestamp
  | e => e

/-- Erase the timestamp of a statistics result; the error records carry
no timestamp and are left unchanged. -/
def StatsResult.clearTimestamp : StatsResult → StatsResult
  | .ok r => .ok r.clearTimestamp
  | e => e

lemma applyEventInfo_eq (d : RawStatsData) (r : StatsOk) :
    applyEventInfo d r = { r with event_info :=
      match d.eventInformationModel with
      | .val e => .filled (mkEventInfoRec e)
      | _ => r.event_info } := by
  unfold applyEventInfo
  cases d.eventInformationModel <;> rfl

lemma applyStandingsSeason_eq (d : RawStatsData) (r : StatsOk) :
    applyStandingsSeason d r = { r with tournament_standings :=
      match d.tournamentStandingsModel with
      | .val (s0 :: _) => .filled (.fromSeason
          { tournament_name := s0.tournamentName
          , season := s0.name
          , overall_table := s0.overAll
          , home_table := s0.homeTeam
          , away_table := s0.awayTeam })
      | _ => r.tournament_standings } := by
  unfold applyStandingsSeason
  cases h : d.tournamentStandingsModel with
  | absent => rfl
  | emptyVal => rfl
  | val l => cases l <;> rfl

lemma applyRecentEvent_eq (d : RawStatsData) (r : StatsOk) :
    applyRecentEvent d r = { r with head_to_head :=
      match d.recentEventModel with
      | .val h => .filled (.fromRecentEvent
          { overall_matches := h.overall
          , home_team_matches := h.homeTeam
          , away_team_matches := h.awayTeam })
      | _ => r.head_to_head } := by
  unfold applyRecentEvent
  cases d.recentEventModel <;> rfl

lemma applyLastEvent_eq (d : RawStatsData) (r : StatsOk) :
    applyLastEvent d r = { r with recent_form :=
      match d.lastEventModel with
      | .val f => some
          { home_team := { id := f.homeTeam.id, name := f.homeTeam.name
                         , recent_matches := f.homeOverAll }
          , away_team := { id := f.awayTeam.id, name := f.awayTeam.name
                         , recent_matches := f.awayOverAll } }
      | _ => r.recent_form } := by
  unfold applyLastEvent
  cases d.lastEventModel <;> rfl

lemma applyIddaa_eq (d : RawStatsData) (r : StatsOk) :
    applyIddaa d r = { r with betting_analysis :=
      match d.soccerIddaaAnalysModel with
      | .val b => .filled (.fromIddaa
          { general_info := b.generalInformations
          , market_analysis := b.bettingAnalysis })
      | _ => r.betting_analysis } := by
  unfold applyIddaa
  cases d.soccerIddaaAnalysModel <;> rfl

lemma applyRefereePage_eq (d : RawStatsData) (r : StatsOk) :
    applyRefereePage d r = { r with referee_info :=
      match d.soccerRefereePageModel with
      | .val p =>
        if 0 < p.referee.id.getD 0 then
          .filled (.fromPage
            { id := p.referee.id
            , age := p.referee.age
            , country := p.referee.country
            , tournaments := p.refereeTournaments
            , recent_matches := p.refereeMatches })
        else r.referee_info
      | _ => r.referee_info } := by
  unfold applyRefereePage
  cases d.soccerRefereePageModel with
  | absent => rfl
  | emptyVal => rfl
  | val p =>
    by_cases h : 0 < p.referee.id.getD 0
    · simp only [if_pos h]
    · simp only [if_neg h]

lemma applyLeagueTable_eq (d : RawStatsData) (r : StatsOk) :
    applyLeagueTable d r = { r with tournament_standings :=
      match d.leagueTableModel with
      | .val t => .filled (.fromLeague
          { home_team_position := t.homeTeamPosition
          , away_team_position := t.awayTeamPosition
          , league_table := t.leagueTable.map mkLeagueRowRec })
      | _ => r.tournament_standings } := by
  unfold applyLeagueTable
  cases d.leagueTableModel <;> rfl

lemma applyHeadToHead_eq (d : RawStatsData) (r : StatsOk) :
    applyHeadToHead d r = { r with head_to_head :=
      match d.headToHeadModel with
      | .val h => .filled (.fromModel
          { total_matches := h.totalMatches
          , home_team_wins := h.homeTeamWins
          , away_team_wins := h.awayTeamWins
          , draws := h.draws
          , recent_matches := h.headToHeadMatches.map mkH2HMatchRec })
      | _ => r.head_to_head } := by
  unfold applyHeadToHead
  cases d.headToHeadModel <;> rfl

lemma applyRecentForm_eq (d : RawStatsData) (r : StatsOk) :
    applyRecentForm d r = { r with recent_matches :=
      match d.recentFormModel with
      | .val f => .filled
          { home_team_form := f.homeTeamForm.map mkFormMatchRec
          , away_team_form := f.awayTeamForm.map mkFormMatchRec }
      | _ => r.recent_matches } := by
  unfold applyRecentForm
  cases d.recentFormModel <;> rfl

lemma applyBettingModel_eq (d : RawStatsData) (r : StatsOk) :
    applyBettingModel d r = { r with betting_analysis :=
      match d.bettingAnalysisModel with
      | .val b => .filled (.fromModel
          { opening_odds := { home := b.openingOdds.home, draw := b.openingOdds.draw
                            , away := b.openingOdds.away }
          , current_odds := { home := b.currentOdds.home, draw := b.currentOdds.draw
                            , away := b.currentOdds.away }
          , odds_movement := b.oddsMovement })
      | _ => r.betting_analysis } := by
  unfold applyBettingModel
  cases d.bettingAnalysisModel <;> rfl

lemma applyRefereeInformation_eq (d : RawStatsData) (r : StatsOk) :
    applyRefereeInformation d r = { r with referee_info :=
      match d.refereeInformation with
      | .val ri => .filled (.fromInformation
          { name := ri.refereeName
          , nationality := ri.nationality
          , experience :=
            { total_matches := ri.totalMatches
            , yellow_cards_per_match := ri.avgYellowCards
            , red_cards_per_match := ri.avgRedCards
            , penalties_per_match := ri.avgPenalties } })
      | _ => r.referee_info } := by
  unfold applyRefereeInformation
  cases d.refereeInformation <;> rfl

lemma applyTeamStats_eq (d : RawStatsData) (r : StatsOk) :
    applyTeamStats d r = { r with team_stats :=
      match d.teamStatisticsModel with
      | .val ts => .filled
          { home_team :=
            { attack_strength := ts.homeTeam.attackStrength
            , defense_strength := ts.homeTeam.defenseStrength
            , recent_form_points := ts.homeTeam.recentFormPoints
            , avg_goals_scored := ts.homeTeam.avgGoalsScored
            , avg_goals_conceded := ts.homeTeam.avgGoalsConceded
            , home_advantage := ts.homeTeam.homeAdvantage }
          , away_team :=
            { attack_strength := ts.awayTeam.attackStrength
            , defense_strength := ts.awayTeam.defenseStrength
            , recent_form_points := ts.awayTeam.recentFormPoints
            , avg_goals_scored := ts.awayTeam.avgGoalsScored
            , avg_goals_conceded := ts.awayTeam.avgGoalsConceded
            , away_performance := ts.awayTeam.awayPerformance } }
      | _ => r.team_stats } := by
  unfold applyTeamStats
  cases d.teamStatisticsModel <;> rfl


lemma applyEventInfo_proj_success (d : RawStatsData) (r : StatsOk) :
    (applyEventInfo d r).success = r.success := by
  rw [applyEventInfo_eq]

lemma applyEventInfo_proj_timestamp (d : RawStatsData) (r : StatsOk) :
    (applyEventInfo d r).timestamp = r.timestamp := by
  rw [applyEventInfo_eq]

lemma applyEventInfo_proj_tournament_standings (d : RawStatsData) (r : StatsOk) :
    (applyEventInfo d r).tournament_standings = r.tournament_standings := by
  rw [applyEventInfo_eq]

lemma applyEventInfo_proj_head_to_head (d : RawStatsData) (r : StatsOk) :
    (applyEventInfo d r).head_to_head = r.head_to_head := by
  rw [applyEventInfo_eq]

lemma applyEventInfo_proj_recent_matches (d : RawStatsData) (r : StatsOk) :
    (applyEventInfo d r).recent_matches = r.recent_matches := by
  rw [applyEventInfo_eq]

lemma applyEventInfo_proj_betting_analysis (d : RawStatsData) (r : StatsOk) :
    (applyEventInfo d r).betting_analysis = r.betting_analysis := by
  rw [applyEventInfo_eq]

lemma applyEventInfo_proj_referee_info (d : RawStatsData) (r : StatsOk) :
    (applyEventInfo d r).referee_info = r.referee_info := by
  rw [applyEventInfo_eq]

lemma applyEventInfo_proj_team_stats (d : RawStatsData) (r : StatsOk) :
    (applyEventInfo d r).team_stats = r.team_stats := by
  rw [applyEventInfo_eq]

lemma applyEventInfo_proj_recent_form (d : RawStatsData) (r : StatsOk) :
    (applyEventInfo d r).recent_form = r.recent_form := by
  rw [applyEventInfo_eq]

lemma applyStandingsSeason_proj_success (d : RawStatsData) (r : StatsOk) :
    (applyStandingsSeason d r).success = r.success := by
  rw [applyStandingsSeason_eq]

lemma applyStandingsSeason_proj_timestamp (d : RawStatsData) (r : StatsOk) :
    (applyStandingsSeason d r).timestamp = r.timestamp := by
  rw [applyStandingsSeason_eq]

lemma applyStandingsSeason_proj_event_info (d : RawStatsData) (r : StatsOk) :
    (applyStandingsSeason d r).event_info = r.event_info := by
  rw [applyStandingsSeason_eq]

lemma applyStandingsSeason_proj_head_to_head (d : RawStatsData) (r : StatsOk) :
    (applyStandingsSeason d r).head_to_head = r.head_to_head := by
  rw [applyStandingsSeason_eq]

lemma applyStandingsSeason_proj_recent_matches (d : RawStatsData) (r : StatsOk) :
    (applyStandingsSeason d r).recent_matches = r.recent_matches := by
  rw [applyStandingsSeason_eq]

lemma applyStandingsSeason_proj_betting_analysis (d : RawStatsData) (r : StatsOk) :
    (applyStandingsSeason d r).betting_analysis = r.betting_analysis := by
  rw [applyStandingsSeason_eq]

lemma applyStandingsSeason_proj_referee_info (d : RawStatsData) (r : StatsOk) :
    (applyStandingsSeason d r).referee_info = r.referee_info := by
  rw [applyStandingsSeason_eq]

lemma applyStandingsSeason_proj_team_stats (d : RawStatsData) (r : StatsOk) :
    (applyStandingsSeason d r).team_stats = r.team_stats := by
  rw [applyStandingsSeason_eq]

lemma applyStandingsSeason_proj_recent_form (d : RawStatsData) (r : StatsOk) :
    (applyStandingsSeason d r).recent_form = r.recent_form := by
  rw [applyStandingsSeason_eq]

lemma applyRecentEvent_proj_success (d : RawStatsData) (r : StatsOk) :
    (applyRecentEvent d r).success = r.success := by
  rw [applyRecentEvent_eq]

lemma applyRecentEvent_proj_timestamp (d : RawStatsData) (r : StatsOk) :
    (applyRecentEvent d r).timestamp = r.timestamp := by
  rw [applyRecentEvent_eq]

lemma applyRecentEvent_proj_event_info (d : RawStatsData) (r : StatsOk) :
    (applyRecentEvent d r).event_info = r.event_info := by
  rw [applyRecentEvent_eq]

lemma applyRecentEvent_proj_tournament_standings (d : RawStatsData) (r : StatsOk) :
    (applyRecentEvent d r).tournament_standings = r.tournament_standings := by
  rw [applyRecentEvent_eq]

lemma applyRecentEvent_proj_recent_matches (d : RawStatsData) (r : StatsOk) :
    (applyRecentEvent d r).recent_matches = r.recent_matches := by
  rw [applyRecentEvent_eq]

lemma applyRecentEvent_proj_betting_analysis (d : RawStatsData) (r : StatsOk) :
    (applyRecentEvent d r).betting_analysis = r.betting_analysis := by
  rw [applyRecentEvent_eq]

lemma applyRecentEvent_proj_referee_info (d : RawStatsData) (r : StatsOk) :
    (applyRecentEvent d r).referee_info = r.referee_info := by
  rw [applyRecentEvent_eq]

lemma applyRecentEvent_proj_team_stats (d : RawStatsData) (r : StatsOk) :
    (applyRecentEvent d r).team_stats = r.team_stats := by
  rw [applyRecentEvent_eq]

lemma applyRecentEvent_proj_recent_form (d : RawStatsData) (r : StatsOk) :
    (applyRecentEvent d r).recent_form = r.recent_form := by
  rw [applyRecentEvent_eq]

lemma applyLastEvent_proj_success (d : RawStatsData) (r : StatsOk) :
    (applyLastEvent d r).success = r.success := by
  rw [applyLastEvent_eq]

lemma applyLastEvent_proj_timestamp (d : RawStatsData) (r : StatsOk) :
    (applyLastEvent d r).timestamp = r.timestamp := by
  rw [applyLastEvent_eq]

lemma applyLastEvent_proj_event_info (d : RawStatsData) (r : StatsOk) :
    (applyLastEvent d r).event_info = r.event_info := by
  rw [applyLastEvent_eq]

lemma applyLastEvent_proj_tournament_standings (d : RawStatsData) (r : StatsOk) :
    (applyLastEvent d r).tournament_standings = r.tournament_standings := by
  rw [applyLastEvent_eq]

lemma applyLastEvent_proj_head_to_head (d : RawStatsData) (r : StatsOk) :
    (applyLastEvent d r).head_to_head = r.head_to_head := by
  rw [applyLastEvent_eq]

lemma applyLastEvent_proj_recent_matches (d : RawStatsData) (r : StatsOk) :
    (applyLastEvent d r).recent_matches = r.recent_matches := by
  rw [applyLastEvent_eq]

lemma applyLastEvent_proj_betting_analysis (d : RawStatsData) (r : StatsOk) :
    (applyLastEvent d r).betting_analysis = r.betting_analysis := by
  rw [applyLastEvent_eq]

lemma applyLastEvent_proj_referee_info (d : RawStatsData) (r : StatsOk) :
    (applyLastEvent d r).referee_info = r.referee_info := by
  rw [applyLastEvent_eq]

lemma applyLastEvent_proj_team_stats (d : RawStatsData) (r : StatsOk) :
    (applyLastEvent d r).team_stats = r.team_stats := by
  rw [applyLastEvent_eq]

lemma applyIddaa_proj_success (d : RawStatsData) (r : StatsOk) :
    (applyIddaa d r).success = r.success := by
  rw [applyIddaa_eq]

lemma applyIddaa_proj_timestamp (d : RawStatsData) (r : StatsOk) :
    (applyIddaa d r).timestamp = r.timestamp := by
  rw [applyIddaa_eq]

lemma applyIddaa_proj_event_info (d : RawStatsData) (r : StatsOk) :
    (applyIddaa d r).event_info = r.event_info := by
  rw [applyIddaa_eq]

lemma applyIddaa_proj_tournament_standings (d : RawStatsData) (r : StatsOk) :
    (applyIddaa d r).tournament_standings = r.tournament_standings := by
  rw [applyIddaa_eq]

lemma applyIddaa_proj_head_to_head (d : RawStatsData) (r : StatsOk) :
    (applyIddaa d r).head_to_head = r.head_to_head := by
  rw [applyIddaa_eq]

lemma applyIddaa_proj_recent_matches (d : RawStatsData) (r : StatsOk) :
    (applyIddaa d r).recent_matches = r.recent_matches := by
  rw [applyIddaa_eq]

lemma applyIddaa_proj_referee_info (d : RawStatsData) (r : StatsOk) :
    (applyIddaa d r).referee_info = r.referee_info := by
  rw [applyIddaa_eq]

lemma applyIddaa_proj_team_stats (d : RawStatsData) (r : StatsOk) :
    (applyIddaa d r).team_stats = r.team_stats := by
  rw [applyIddaa_eq]

lemma applyIddaa_proj_recent_form (d : RawStatsData) (r : StatsOk) :
    (applyIddaa d r).recent_form = r.recent_form := by
  rw [applyIddaa_eq]

lemma applyRefereePage_proj_success (d : RawStatsData) (r : StatsOk) :
    (applyRefereePage d r).success = r.success := by
  rw [applyRefereePage_eq]

lemma applyRefereePage_proj_timestamp (d : RawStatsData) (r : StatsOk) :
    (applyRefereePage d r).timestamp = r.timestamp := by
  rw [applyRefereePage_eq]

lemma applyRefereePage_proj_event_info (d : RawStatsData) (r : StatsOk) :
    (applyRefereePage d r).event_info = r.event_info := by
  rw [applyRefereePage_eq]

lemma applyRefereePage_proj_tournament_standings (d : RawStatsData) (r : StatsOk) :
    (applyRefereePage d r).tournament_standings = r.tournament_standings := by
  rw [applyRefereePage_eq]

lemma applyRefereePage_proj_head_to_head (d : RawStatsData) (r : StatsOk) :
    (applyRefereePage d r).head_to_head = r.head_to_head := by
  rw [applyRefereePage_eq]

lemma applyRefereePage_proj_recent_matches (d : RawStatsData) (r : StatsOk) :
    (applyRefereePage d r).recent_matches = r.recent_matches := by
  rw [applyRefereePage_eq]

lemma applyRefereePage_proj_betting_analysis (d : RawStatsData) (r : StatsOk) :
    (applyRefereePage d r).betting_analysis = r.betting_analysis := by
  rw [applyRefereePage_eq]

lemma applyRefereePage_proj_team_stats (d : RawStatsData) (r : StatsOk) :
    (applyRefereePage d r).team_stats = r.team_stats := by
  rw [applyRefereePage_eq]

lemma applyRefereePage_proj_recent_form (d : RawStatsData) (r : StatsOk) :
    (applyRefereePage d r).recent_form = r.recent_form := by
  rw [applyRefereePage_eq]

lemma applyLeagueTable_proj_success (d : RawStatsData) (r : StatsOk) :
    (applyLeagueTable d r).success = r.success := by
  rw [applyLeagueTable_eq]

lemma applyLeagueTable_proj_timestamp (d : RawStatsData) (r : StatsOk) :
    (applyLeagueTable d r).timestamp = r.timestamp := by
  rw [applyLeagueTable_eq]

lemma applyLeagueTable_proj_event_info (d : RawStatsData) (r : StatsOk) :
    (applyLeagueTable d r).event_info = r.event_info := by
  rw [applyLeagueTable_eq]

lemma applyLeagueTable_proj_head_to_head (d : RawStatsData) (r : StatsOk) :
    (applyLeagueTable d r).head_to_head = r.head_to_head := by
  rw [applyLeagueTable_eq]

lemma applyLeagueTable_proj_recent_matches (d : RawStatsData) (r : StatsOk) :
    (applyLeagueTable d r).recent_matches = r.recent_matches := by
  rw [applyLeagueTable_eq]

lemma applyLeagueTable_proj_betting_analysis (d : RawStatsData) (r : StatsOk) :
    (applyLeagueTable d r).betting_analysis = r.betting_analysis := by
  rw [applyLeagueTable_eq]

lemma applyLeagueTable_proj_referee_info (d : RawStatsData) (r : StatsOk) :
    (applyLeagueTable d r).referee_info = r.referee_info := by
  rw [applyLeagueTable_eq]

lemma applyLeagueTable_proj_team_stats (d : RawStatsData) (r : StatsOk) :
    (applyLeagueTable d r).team_stats = r.team_stats := by
  rw [applyLeagueTable_eq]

lemma applyLeagueTable_proj_recent_form (d : RawStatsData) (r : StatsOk) :
    (applyLeagueTable d r).recent_form = r.recent_form := by
  rw [applyLeagueTable_eq]

lemma applyHeadToHead_proj_success (d : RawStatsData) (r : StatsOk) :
    (applyHeadToHead d r).success = r.success := by
  rw [applyHeadToHead_eq]

lemma applyHeadToHead_proj_timestamp (d : RawStatsData) (r : StatsOk) :
    (applyHeadToHead d r).timestamp = r.timestamp := by
  rw [applyHeadToHead_eq]

lemma applyHeadToHead_proj_event_info (d : RawStatsData) (r : StatsOk) :
    (applyHeadToHead d r).event_info = r.event_info := by
  rw [applyHeadToHead_eq]

lemma applyHeadToHead_proj_tournament_standings (d : RawStatsData) (r : StatsOk) :
    (applyHeadToHead d r).tournament_standings = r.tournament_standings := by
  rw [applyHeadToHead_eq]

lemma applyHeadToHead_proj_recent_matches (d : RawStatsData) (r : StatsOk) :
    (applyHeadToHead d r).recent_matches = r.recent_matches := by
  rw [applyHeadToHead_eq]

lemma applyHeadToHead_proj_betting_analysis (d : RawStatsData) (r : StatsOk) :
    (applyHeadToHead d r).betting_analysis = r.betting_analysis := by
  rw [applyHeadToHead_eq]

lemma applyHeadToHead_proj_referee_info (d : RawStatsData) (r : StatsOk) :
    (applyHeadToHead d r).referee_info = r.referee_info := by
  rw [applyHeadToHead_eq]

lemma applyHeadToHead_proj_team_stats (d : RawStatsData) (r : StatsOk) :
    (applyHeadToHead d r).team_stats = r.team_stats := by
  rw [applyHeadToHead_eq]

lemma applyHeadToHead_proj_recent_form (d : RawStatsData) (r : StatsOk) :
    (applyHeadToHead d r).recent_form = r.recent_form := by
  rw [applyHeadToHead_eq]

lemma applyRecentForm_proj_success (d : RawStatsData) (r : StatsOk) :
    (applyRecentForm d r).success = r.success := by
  rw [applyRecentForm_eq]

lemma applyRecentForm_proj_timestamp (d : RawStatsData) (r : StatsOk) :
    (applyRecentForm d r).timestamp = r.timestamp := by
  rw [applyRecentForm_eq]

lemma applyRecentForm_proj_event_info (d : RawStatsData) (r : StatsOk) :
    (applyRecentForm d r).event_info = r.event_info := by
  rw [applyRecentForm_eq]

lemma applyRecentForm_proj_tournament_standings (d : RawStatsData) (r : StatsOk) :
    (applyRecentForm d r).tournament_standings = r.tournament_standings := by
  rw [applyRecentForm_eq]

lemma applyRecentForm_proj_head_to_head (d : RawStatsData) (r : StatsOk) :
    (applyRecentForm d r).head_to_head = r.head_to_head := by
  rw [applyRecentForm_eq]

lemma applyRecentForm_proj_betting_analysis (d : RawStatsData) (r : StatsOk) :
    (applyRecentForm d r).betting_analysis = r.betting_analysis := by
  rw [applyRecentForm_eq]

lemma applyRecentForm_proj_referee_info (d : RawStatsData) (r : StatsOk) :
    (applyRecentForm d r).referee_info = r.referee_info := by
  rw [applyRecentForm_eq]

lemma applyRecentForm_proj_team_stats (d : RawStatsData) (r : StatsOk) :
    (applyRecentForm d r).team_stats = r.team_stats := by
  rw [applyRecentForm_eq]

lemma applyRecentForm_proj_recent_form (d : RawStatsData) (r : StatsOk) :
    (applyRecentForm d r).recent_form = r.recent_form := by
  rw [applyRecentForm_eq]

lemma applyBettingModel_proj_success (d : RawStatsData) (r : StatsOk) :
    (applyBettingModel d r).success = r.success := by
  rw [applyBettingModel_eq]

lemma applyBettingModel_proj_timestamp (d : RawStatsData) (r : StatsOk) :
    (applyBettingModel d r).timestamp = r.timestamp := by
  rw [applyBettingModel_eq]

lemma applyBettingModel_proj_event_info (d : RawStatsData) (r : StatsOk) :
    (applyBettingModel d r).event_info = r.event_info := by
  rw [applyBettingModel_eq]

lemma applyBettingModel_proj_tournament_standings (d : RawStatsData) (r : StatsOk) :
    (applyBettingModel d r).tournament_standings = r.tournament_standings := by
  rw [applyBettingModel_eq]

lemma applyBettingModel_proj_head_to_head (d : RawStatsData) (r : StatsOk) :
    (applyBettingModel d r).head_to_head = r.head_to_head := by
  rw [applyBettingModel_eq]

lemma applyBettingModel_proj_recent_matches (d : RawStatsData) (r : StatsOk) :
    (applyBettingModel d r).recent_matches = r.recent_matches := by
  rw [applyBettingModel_eq]

lemma applyBettingModel_proj_referee_info (d : RawStatsData) (r : StatsOk) :
    (applyBettingModel d r).referee_info = r.referee_info := by
  rw [applyBettingModel_eq]

lemma applyBettingModel_proj_team_stats (d : RawStatsData) (r : StatsOk) :
    (applyBettingModel d r).team_stats = r.team_stats := by
  rw [applyBettingModel_eq]

lemma applyBettingModel_proj_recent_form (d : RawStatsData) (r : StatsOk) :
    (applyBettingModel d r).recent_form = r.recent_form := by
  rw [applyBettingModel_eq]

lemma applyRefereeInformation_proj_success (d : RawStatsData) (r : StatsOk) :
    (applyRefereeInformation d r).success = r.success := by
  rw [applyRefereeInformation_eq]

lemma applyRefereeInformation_proj_timestamp (d : RawStatsData) (r : StatsOk) :
    (applyRefereeInformation d r).timestamp = r.timestamp := by
  rw [applyRefereeInformation_eq]

lemma applyRefereeInformation_proj_event_info (d : RawStatsData) (r : StatsOk) :
    (applyRefereeInformation d r).event_info = r.event_info := by
  rw [applyRefereeInformation_eq]

lemma applyRefereeInformation_proj_tournament_standings (d : RawStatsData) (r : StatsOk) :
    (applyRefereeInformation d r).tournament_standings = r.tournament_standings := by
  rw [applyRefereeInformation_eq]

lemma applyRefereeInformation_proj_head_to_head (d : RawStatsData) (r : StatsOk) :
    (applyRefereeInformation d r).head_to_head = r.head_to_head := by
  rw [applyRefereeInformation_eq]

lemma applyRefereeInformation_proj_recent_matches (d : RawStatsData) (r : StatsOk) :
    (applyRefereeInformation d r).recent_matches = r.recent_matches := by
  rw [applyRefereeInformation_eq]

lemma applyRefereeInformation_proj_betting_analysis (d : RawStatsData) (r : StatsOk) :
    (applyRefereeInformation d r).betting_analysis = r.betting_analysis := by
  rw [applyRefereeInformation_eq]

lemma applyRefereeInformation_proj_team_stats (d : RawStatsData) (r : StatsOk) :
    (applyRefereeInformation d r).team_stats = r.team_stats := by
  rw [applyRefereeInformation_eq]

lemma applyRefereeInformation_proj_recent_form (d : RawStatsData) (r : StatsOk) :
    (applyRefereeInformation d r).recent_form = r.recent_form := by
  rw [applyRefereeInformation_eq]

lemma applyTeamStats_proj_success (d : RawStatsData) (r : StatsOk) :
    (applyTeamStats d r).success = r.success := by
  rw [applyTeamStats_eq]

lemma applyTeamStats_proj_timestamp (d : RawStatsData) (r : StatsOk) :
    (applyTeamStats d r).timestamp = r.timestamp := by
  rw [applyTeamStats_eq]

lemma applyTeamStats_proj_event_info (d : RawStatsData) (r : StatsOk) :
    (applyTeamStats d r).event_info = r.event_info := by
  rw [applyTeamStats_eq]

lemma applyTeamStats_proj_tournament_standings (d : RawStatsData) (r : StatsOk) :
    (applyTeamStats d r).tournament_standings = r.tournament_standings := by
  rw [applyTeamStats_eq]

lemma applyTeamStats_proj_head_to_head (d : RawStatsData) (r : StatsOk) :
    (applyTeamStats d r).head_to_head = r.head_to_head := by
  rw [applyTeamStats_eq]

lemma applyTeamStats_proj_recent_matches (d : RawStatsData) (r : StatsOk) :
    (applyTeamStats d r).recent_matches = r.recent_matches := by
  rw [applyTeamStats_eq]

lemma applyTeamStats_proj_betting_analysis (d : RawStatsData) (r : StatsOk) :
    (applyTeamStats d r).betting_analysis = r.betting_analysis := by
  rw [applyTeamStats_eq]

lemma applyTeamStats_proj_referee_info (d : RawStatsData) (r : StatsOk) :
    (applyTeamStats d r).referee_info = r.referee_info := by
  rw [applyTeamStats_eq]

lemma applyTeamStats_proj_recent_form (d : RawStatsData) (r : StatsOk) :
    (applyTeamStats d r).recent_form = r.recent_form := by
  rw [applyTeamStats_eq]

lemma stats_success (d : RawStatsData) (eid t : String) :
    (processEventStatisticsBody d eid t).success =
      true := by
  unfold processEventStatisticsBody
  simp only [applyTeamStats_proj_success, applyRefereeInformation_proj_success, applyBettingModel_proj_success, applyRecentForm_proj_success, applyHeadToHead_proj_success, applyLeagueTable_proj_success, applyRefereePage_proj_success, applyIddaa_proj_success, applyLastEvent_proj_success, applyRecentEvent_proj_success, applyStandingsSeason_proj_success, applyEventInfo_proj_success, initStats]

lemma stats_timestamp (d : RawStatsData) (eid t : String) :
    (processEventStatisticsBody d eid t).timestamp =
      t := by
  unfold processEventStatisticsBody
  simp only [applyTeamStats_proj_timestamp, applyRefereeInformation_proj_timestamp, applyBettingModel_proj_timestamp, applyRecentForm_proj_timestamp, applyHeadToHead_proj_timestamp, applyLeagueTable_proj_timestamp, applyRefereePage_proj_timestamp, applyIddaa_proj_timestamp, applyLastEvent_proj_timestamp, applyRecentEvent_proj_timestamp, applyStandingsSeason_proj_timestamp, applyEventInfo_proj_timestamp, initStats]

lemma stats_event_info (d : RawStatsData) (eid t : String) :
    (processEventStatisticsBody d eid t).event_info =
      (match d.eventInformationModel with
      | .val e => .filled (mkEventInfoRec e)
      | _ => .emptyDict) := by
  unfold processEventStatisticsBody
  simp only [applyTeamStats_proj_event_info, applyRefereeInformation_proj_event_info, applyBettingModel_proj_event_info, applyRecentForm_proj_event_info, applyHeadToHead_proj_event_info, applyLeagueTable_proj_event_info, applyRefereePage_proj_event_info, applyIddaa_proj_event_info, applyLastEvent_proj_event_info, applyRecentEvent_proj_event_info, applyStandingsSeason_proj_event_info, applyEventInfo_eq, initStats]

lemma stats_tournament_standings (d : RawStatsData) (eid t : String) :
    (processEventStatisticsBody d eid t).tournament_standings =
      (match d.leagueTableModel with
      | .val tb => .filled (.fromLeague
          { home_team_position := tb.homeTeamPosition
          , away_team_position := tb.awayTeamPosition
          , league_table := tb.leagueTable.map mkLeagueRowRec })
      | _ =>
        match d.tournamentStandingsModel with
        | .val (s0 :: _) => .filled (.fromSeason
            { tournament_name := s0.tournamentName
            , season := s0.name
            , overall_table := s0.overAll
            , home_table := s0.homeTeam
            , away_table := s0.awayTeam })
        | _ => .emptyDict) := by
  unfold processEventStatisticsBody
  simp only [applyTeamStats_proj_tournament_standings, applyRefereeInformation_proj_tournament_standings, applyBettingModel_proj_tournament_standings, applyRecentForm_proj_tournament_standings, applyHeadToHead_proj_tournament_standings, applyLeagueTable_eq, applyRefereePage_proj_tournament_standings, applyIddaa_proj_tournament_standings, applyLastEvent_proj_tournament_standings, applyRecentEvent_proj_tournament_standings, applyStandingsSeason_eq, applyEventInfo_proj_tournament_standings, initStats]

lemma stats_head_to_head (d : RawStatsData) (eid t : String) :
    (processEventStatisticsBody d eid t).head_to_head =
      (match d.headToHeadModel with
      | .val h => .filled (.fromModel
          { total_matches := h.totalMatches
          , home_team_wins := h.homeTeamWins
          , away_team_wins := h.awayTeamWins
          , draws := h.draws
          , recent_matches := h.headToHeadMatches.map mkH2HMatchRec })
      | _ =>
        match d.recentEventModel with
        | .val h => .filled (.fromRecentEvent
            { overall_matches := h.overall
            , home_team_matches := h.homeTeam
            , away_team_matches := h.awayTeam })
        | _ => .emptyDict) := by
  unfold processEventStatisticsBody
  simp only [applyTeamStats_proj_head_to_head, applyRefereeInformation_proj_head_to_head, applyBettingModel_proj_head_to_head, applyRecentForm_proj_head_to_head, applyHeadToHead_eq, applyLeagueTable_proj_head_to_head, applyRefereePage_proj_head_to_head, applyIddaa_proj_head_to_head, applyLastEvent_proj_head_to_head, applyRecentEvent_eq, applyStandingsSeason_proj_head_to_head, applyEventInfo_proj_head_to_head, initStats]

lemma stats_recent_matches (d : RawStatsData) (eid t : String) :
    (processEventStatisticsBody d eid t).recent_matches =
      (match d.recentFormModel with
      | .val f => .filled
          { home_team_form := f.homeTeamForm.map mkFormMatchRec
          , away_team_form := f.awayTeamForm.map mkFormMatchRec }
      | _ => .emptyDict) := by
  unfold processEventStatisticsBody
  simp only [applyTeamStats_proj_recent_matches, applyRefereeInformation_proj_recent_matches, applyBettingModel_proj_recent_matches, applyRecentForm_eq, applyHeadToHead_proj_recent_matches, applyLeagueTable_proj_recent_matches, applyRefereePage_proj_recent_matches, applyIddaa_proj_recent_matches, applyLastEvent_proj_recent_matches, applyRecentEvent_proj_recent_matches, applyStandingsSeason_proj_recent_matches, applyEventInfo_proj_recent_matches, initStats]

lemma stats_betting_analysis (d : RawStatsData) (eid t : String) :
    (processEventStatisticsBody d eid t).betting_analysis =
      (match d.bettingAnalysisModel with
      | .val b => .filled (.fromModel
          { opening_odds := { home := b.openingOdds.home, draw := b.openingOdds.draw
                            , away := b.openingOdds.away }
          , current_odds := { home := b.currentOdds.home, draw := b.currentOdds.draw
                            , away := b.currentOdds.away }
          , odds_movement := b.oddsMovement })
      | _ =>
        match d.soccerIddaaAnalysModel with
        | .val b => .filled (.fromIddaa
            { general_info := b.generalInformations
            , market_analysis := b.bettingAnalysis })
        | _ => .emptyDict) := by
  unfold processEventStatisticsBody
  simp only [applyTeamStats_proj_betting_analysis, applyRefereeInformation_proj_betting_analysis, applyBettingModel_eq, applyRecentForm_proj_betting_analysis, applyHeadToHead_proj_betting_analysis, applyLeagueTable_proj_betting_analysis, applyRefereePage_proj_betting_analysis, applyIddaa_eq, applyLastEvent_proj_betting_analysis, applyRecentEvent_proj_betting_analysis, applyStandingsSeason_proj_betting_analysis, applyEventInfo_proj_betting_analysis, initStats]

lemma stats_referee_info (d : RawStatsData) (eid t : String) :
    (processEventStatisticsBody d eid t).referee_info =
      (match d.refereeInformation with
      | .val ri => .filled (.fromInformation
          { name := ri.refereeName
          , nationality := ri.nationality
          , experience :=
            { total_matches := ri.totalMatches
            , yellow_cards_per_match := ri.avgYellowCards
            , red_cards_per_match := ri.avgRedCards
            , penalties_per_match := ri.avgPenalties } })
      | _ =>
        match d.soccerRefereePageModel with
        | .val p =>
          if 0 < p.referee.id.getD 0 then
            .filled (.fromPage
              { id := p.referee.id
              , age := p.referee.age
              , country := p.referee.country
              , tournaments := p.refereeTournaments
              , recent_matches := p.refereeMatches })
          else .emptyDict
        | _ => .emptyDict) := by
  unfold processEventStatisticsBody
  simp only [applyTeamStats_proj_referee_info, applyRefereeInformation_eq, applyBettingModel_proj_referee_info, applyRecentForm_proj_referee_info, applyHeadToHead_proj_referee_info, applyLeagueTable_proj_referee_info, applyRefereePage_eq, applyIddaa_proj_referee_info, applyLastEvent_proj_referee_info, applyRecentEvent_proj_referee_info, applyStandingsSeason_proj_referee_info, applyEventInfo_proj_referee_info, initStats]

lemma stats_team_stats (d : RawStatsData) (eid t : String) :
    (processEventStatisticsBody d eid t).team_stats =
      (match d.teamStatisticsModel with
      | .val ts => .filled
          { home_team :=
            { attack_strength := ts.homeTeam.attackStrength
            , defense_strength := ts.homeTeam.defenseStrength
            , recent_form_points := ts.homeTeam.recentFormPoints
            , avg_goals_scored := ts.homeTeam.avgGoalsScored
            , avg_goals_conceded := ts.homeTeam.avgGoalsConceded
            , home_advantage := ts.homeTeam.homeAdvantage }
          , away_team :=
            { attack_strength := ts.awayTeam.attackStrength
            , defense_strength := ts.awayTeam.defenseStrength
            , recent_form_points := ts.awayTeam.recentFormPoints
            , avg_goals_scored := ts.awayTeam.avgGoalsScored
            , avg_goals_conceded := ts.awayTeam.avgGoalsConceded
            , away_performance := ts.awayTeam.awayPerformance } }
      | _ => .emptyDict) := by
  unfold processEventStatisticsBody
  simp only [applyTeamStats_eq, applyRefereeInformation_proj_team_stats, applyBettingModel_proj_team_stats, applyRecentForm_proj_team_stats, applyHeadToHead_proj_team_stats, applyLeagueTable_proj_team_stats, applyRefereePage_proj_team_stats, applyIddaa_proj_team_stats, applyLastEvent_proj_team_stats, applyRecentEvent_proj_team_stats, applyStandingsSeason_proj_team_stats, applyEventInfo_proj_team_stats, initStats]

lemma stats_recent_form (d : RawStatsData) (eid t : String) :
    (processEventStatisticsBody d eid t).recent_form =
      (match d.lastEventModel with
      | .val f => some
          { home_team := { id := f.homeTeam.id, name := f.homeTeam.name
                         , recent_matches := f.homeOverAll }
          , away_team := { id := f.awayTeam.id, name := f.awayTeam.name
                         , recent_matches := f.awayOverAll } }
      | _ => none) := by
  unfold processEventStatisticsBody
  simp only [applyTeamStats_proj_recent_form, applyRefereeInformation_proj_recent_form, applyBettingModel_proj_recent_form, applyRecentForm_proj_recent_form, applyHeadToHead_proj_recent_form, applyLeagueTable_proj_recent_form, applyRefereePage_proj_recent_form, applyIddaa_proj_recent_form, applyLastEvent_eq, applyRecentEvent_proj_recent_form, applyStandingsSeason_proj_recent_form, applyEventInfo_proj_recent_form, initStats]

lemma applyEventInfo_clear (d : RawStatsData) (r : StatsOk) :
    (applyEventInfo d r).clearTimestamp = applyEventInfo d r.clearTimestamp := by
  simp only [applyEventInfo_eq, StatsOk.clearTimestamp]

lemma applyStandingsSeason_clear (d : RawStatsData) (r : StatsOk) :
    (applyStandingsSeason d r).clearTimestamp = applyStandingsSeason d r.clearTimestamp := by
  simp only [applyStandingsSeason_eq, StatsOk.clearTimestamp]

lemma applyRecentEvent_clear (d : RawStatsData) (r : StatsOk) :
    (applyRecentEvent d r).clearTimestamp = applyRecentEvent d r.clearTimestamp := by
  simp only [applyRecentEvent_eq, StatsOk.clearTimestamp]

lemma applyLastEvent_clear (d : RawStatsData) (r : StatsOk) :
    (applyLastEvent d r).clearTimestamp = applyLastEvent d r.clearTimestamp := by
  simp only [applyLastEvent_eq, StatsOk.clearTimestamp]

lemma applyIddaa_clear (d : RawStatsData) (r : StatsOk) :
    (applyIddaa d r).clearTimestamp = applyIddaa d r.clearTimestamp := by
  simp only [applyIddaa_eq, StatsOk.clearTimestamp]

lemma applyRefereePage_clear (d : RawStatsData) (r : StatsOk) :
    (applyRefereePage d r).clearTimestamp = applyRefereePage d r.clearTimestamp := by
  simp only [applyRefereePage_eq, StatsOk.clearTimestamp]

lemma applyLeagueTable_clear (d : RawStatsData) (r : StatsOk) :
    (applyLeagueTable d r).clearTimestamp = applyLeagueTable d r.clearTimestamp := by
  simp only [applyLeagueTable_eq, StatsOk.clearTimestamp]

lemma applyHeadToHead_clear (d : RawStatsData) (r : StatsOk) :
    (applyHeadToHead d r).clearTimestamp = applyHeadToHead d r.clearTimestamp := by
  simp only [applyHeadToHead_eq, StatsOk.clearTimestamp]

lemma applyRecentForm_clear (d : RawStatsData) (r : StatsOk) :
    (applyRecentForm d r).clearTimestamp = applyRecentForm d r.clearTimestamp := by
  simp only [applyRecentForm_eq, StatsOk.clearTimestamp]

lemma applyBettingModel_clear (d : RawStatsData) (r : StatsOk) :
    (applyBettingModel d r).clearTimestamp = applyBettingModel d r.clearTimestamp := by
  simp only [applyBettingModel_eq, StatsOk.clearTimestamp]

lemma applyRefereeInformation_clear (d : RawStatsData) (r : StatsOk) :
    (applyRefereeInformation d r).clearTimestamp = applyRefereeInformation d r.clearTimestamp := by
  simp only [applyRefereeInformation_eq, StatsOk.clearTimestamp]

lemma applyTeamStats_clear (d : RawStatsData) (r : StatsOk) :
    (applyTeamStats d r).clearTimestamp = applyTeamStats d r.clearTimestamp := by
  simp only [applyTeamStats_eq, StatsOk.clearTimestamp]

lemma clear_processEventStatisticsBody (d : RawStatsData) (eid t : String) :
    (processEventStatisticsBody d eid t).clearTimestamp = processEventStatisticsBody d eid "" := by
  unfold processEventStatisticsBody
  rw [applyTeamStats_clear, applyRefereeInformation_clear, applyBettingModel_clear,
    applyRecentForm_clear, applyHeadToHead_clear, applyLeagueTable_clear,
    applyRefereePage_clear, applyIddaa_clear, applyLastEvent_clear,
    applyRecentEvent_clear, applyStandingsSeason_clear, applyEventInfo_clear]
  rfl

/-- With a falsy limit (None), the event loop keeps every qualifying event:
the events that survive the live_only skip, in order. -/
lemma buildMatches_none_limit :
    ∀ (events : List RawEvent) (acc : List MatchRec) (liveOnly : Bool),
      buildMatches events acc none liveOnly
        = acc ++ (events.filter fun e => !(liveOnly && !(e.il.getD false))).map mkMatchData := by
  intro events
  induction events with
  | nil => intro acc lo; simp [buildMatches]
  | cons e rest ih =>
    intro acc lo
    by_cases h : (lo && !(e.il.getD false)) = true
    · rw [buildMatches, if_pos h, List.filter_cons_of_neg (by simp [h]), ih]
    · have hqual : (!(lo && !(e.il.getD false))) = true := by simp [h]
      simp only [buildMatches]
      rw [if_neg h]
      simp only [List.filter_cons, hqual, if_true, List.map_cons]
      rw [if_neg (by simp [pyTruthyOptInt])]
      rw [ih]
      simp

/-- A limit of 0 is falsy and behaves exactly like no limit at all. -/
lemma buildMatches_zero_limit :
    ∀ (events : List RawEvent) (acc : List MatchRec) (liveOnly : Bool),
      buildMatches events acc (some 0) liveOnly = buildMatches events acc none liveOnly := by
  intro events
  induction events with
  | nil => intro acc lo; rfl
  | cons e rest ih =>
    intro acc lo
    by_cases h : (lo && !(e.il.getD false)) = true
    · rw [buildMatches, buildMatches, if_pos h, if_pos h, ih]
    · rw [buildMatches, buildMatches, if_neg h, if_neg h]
      rw [if_neg (by simp [pyTruthyOptInt]), if_neg (by simp [pyTruthyOptInt])]
      exact ih _ _

/-- With a truthy positive limit, the loop returns the first limit
qualifying events: the break happens right after the append that reaches
the limit, so the result is the filtered, mapped list truncated. -/
lemma buildMatches_pos_limit :
    ∀ (events : List RawEvent) (acc : List MatchRec) (n : Int) (liveOnly : Bool),
      0 < n → (acc.length : Int) < n →
      buildMatches events acc (some n) liveOnly
        = acc ++ (((events.filter fun e => !(liveOnly && !(e.il.getD false))).map
            mkMatchData).take (n - acc.length).toNat) := by
  intro events
  induction events with
  | nil => intro acc n lo h1 h2; simp [buildMatches]
  | cons e rest ih =>
    intro acc n lo h1 h2
    by_cases hskip : (lo && !(e.il.getD false)) = true
    · rw [buildMatches, if_pos hskip, List.filter_cons_of_neg (by simp [hskip]),
        ih acc n lo h1 h2]
    · have hqual : (!(lo && !(e.il.getD false))) = true := by simp [hskip]
      simp only [buildMatches]
      rw [if_neg hskip]
      simp only [List.filter_cons, hqual, if_true, List.map_cons]
      have hp : pyTruthyOptInt (some n) = true := by
        simp only [pyTruthyOptInt, bne_iff_ne, ne_eq]
        omega
      by_cases hbreak : n ≤ (acc.length : Int) + 1
      · rw [if_pos (by simp [hp, List.length_append]; push_cast; omega)]
        have htake : (n - acc.length).toNat = 1 := by omega
        rw [htake]
        simp
      · rw [if_neg (by simp [hp, List.length_append]; push_cast; omega)]
        rw [ih (acc ++ [mkMatchData e]) n lo h1
          (by simp only [List.length_append, List.length_singleton]; push_cast; omega)]
        have hsplit : (n - ((acc ++ [mkMatchData e]).length : Int)).toNat + 1
            = (n - acc.length).toNat := by
          simp only [List.length_append, List.length_singleton]
          push_cast
          omega
        rw [← hsplit]
        simp [List.take_succ_cons]

lemma pyStrInt_eq_iff_1 (n : Int) : pyStrInt n = "1" ↔ n = 1 :=
  pyStrInt_eq_iff "1" pyStrInt_1

lemma pyStrInt_eq_iff_2 (n : Int) : pyStrInt n = "2" ↔ n = 2 :=
  pyStrInt_eq_iff "2" pyStrInt_2

lemma pyStrInt_eq_iff_3 (n : Int) : pyStrInt n = "3" ↔ n = 3 :=
  pyStrInt_eq_iff "3" pyStrInt_3

lemma pyStrInt_eq_iff_4 (n : Int) : pyStrInt n = "4" ↔ n = 4 :=
  pyStrInt_eq_iff "4" pyStrInt_4

lemma pyStrInt_eq_iff_5 (n : Int) : pyStrInt n = "5" ↔ n = 5 :=
  pyStrInt_eq_iff "5" pyStrInt_5

lemma pyStrInt_eq_iff_6 (n : Int) : pyStrInt n = "6" ↔ n = 6 :=
  pyStrInt_eq_iff "6" pyStrInt_6

lemma pyStrInt_eq_iff_7 (n : Int) : pyStrInt n = "7" ↔ n = 7 :=
  pyStrInt_eq_iff "7" pyStrInt_7

lemma pyStrInt_eq_iff_8 (n : Int) : pyStrInt n = "8" ↔ n = 8 :=
  pyStrInt_eq_iff "8" pyStrInt_8

lemma pyStrInt_eq_iff_9 (n : Int) : pyStrInt n = "9" ↔ n = 9 :=
  pyStrInt_eq_iff "9" pyStrInt_9

lemma pyStrInt_eq_iff_10 (n : Int) : pyStrInt n = "10" ↔ n = 10 :=
  pyStrInt_eq_iff "10" pyStrInt_10

lemma pyStrInt_eq_iff_11 (n : Int) : pyStrInt n = "11" ↔ n = 11 :=
  pyStrInt_eq_iff "11" pyStrInt_11

lemma pyStrInt_eq_iff_12 (n : Int) : pyStrInt n = "12" ↔ n = 12 :=
  pyStrInt_eq_iff "12" pyStrInt_12

lemma pyStrInt_eq_iff_13 (n : Int) : pyStrInt n = "13" ↔ n = 13 :=
  pyStrInt_eq_iff "13" pyStrInt_13

lemma pyStrInt_eq_iff_14 (n : Int) : pyStrInt n = "14" ↔ n = 14 :=
  pyStrInt_eq_iff "14" pyStrInt_14

lemma pyStrInt_eq_iff_15 (n : Int) : pyStrInt n = "15" ↔ n = 15 :=
  pyStrInt_eq_iff "15" pyStrInt_15

/-- Normal form of _categorize_market on integer type codes: the string
round-trip through str() reduces to integer membership in the five
buckets. -/
lemma categorizeMarket_pyInt (n : Int) (sub : PyVal) :
    categorizeMarket (.pyInt n) sub =
      if n = 1 ∨ n = 5 ∨ n = 10 then .main_markets
      else if n = 2 ∨ n = 3 ∨ n = 8 then .goals_markets
      else if n = 4 ∨ n = 6 then .handicap_markets
      else if n = 7 ∨ n = 9 ∨ n = 14 ∨ n = 15 then .player_markets
      else if n = 11 ∨ n = 12 ∨ n = 13 then .events_markets
      else .other_markets := by
  unfold categorizeMarket
  simp only [pyToStr, List.mem_cons, List.mem_singleton, List.not_mem_nil, or_false,
    pyStrInt_eq_iff_1, pyStrInt_eq_iff_2, pyStrInt_eq_iff_3, pyStrInt_eq_iff_4,
    pyStrInt_eq_iff_5, pyStrInt_eq_iff_6, pyStrInt_eq_iff_7, pyStrInt_eq_iff_8,
    pyStrInt_eq_iff_9, pyStrInt_eq_iff_10, pyStrInt_eq_iff_11, pyStrInt_eq_iff_12,
    pyStrInt_eq_iff_13, pyStrInt_eq_iff_14, pyStrInt_eq_iff_15]

lemma extractMainOdds_first :
    ∀ (ms1 : List RawMarket) (mkt : RawMarket) (ms2 : List RawMarket),
      (∀ m ∈ ms1, isMainMarket m = false) → isMainMarket mkt = true →
      extractMainOdds (ms1 ++ mkt :: ms2) = extractMainOdds [mkt] := by
  intro ms1
  induction ms1 with
  | nil =>
    intro mkt ms2 _ hmain
    simp [extractMainOdds, hmain]
  | cons m rest ih =>
    intro mkt ms2 hnone hmain
    rw [List.cons_append]
    simp only [extractMainOdds]
    rw [if_neg (by simp [hnone m (by simp)])]
    exact ih mkt ms2 (fun x hx => hnone x (by simp [hx])) hmain

lemma extractMainOdds_no_main :
    ∀ ms : List RawMarket, (∀ m ∈ ms, isMainMarket m = false) →
      extractMainOdds ms = {} := by
  intro ms
  induction ms with
  | nil => intro _; rfl
  | cons m rest ih =>
    intro h
    simp only [extractMainOdds]
    rw [if_neg (by simp [h m (by simp)])]
    exact ih (fun x hx => h x (by simp [hx]))

/-- Claim C5 (counterexample): the claim says the time-of-last-request
state is updated only after the randomized additional delay, for both
intensities.  In get_matches the update happens inside _apply_rate_limit
(line 62), before the human-simulation random delay of lines 139-141, so
on the normal-intensity path the update precedes the delay. -/
theorem claim_C5_counterexample :
    getMatchesPacingTrace.indexOf RequestStep.setLastRequest <
      getMatchesPacingTrace.indexOf RequestStep.randomDelay := by
  decide

/-- Claim C5 (amended): on the elevated-intensity paths (get_event_details
and get_event_statistics) the time-of-last-request update does come after
the randomized delay (indeed after the response), but on the
normal-intensity path (get_matches) it is updated before the randomized
delay, inside the rate limiter. -/
theorem claim_C5_amended :
    (getEventDetailsPacingTrace.indexOf RequestStep.randomDelay <
       getEventDetailsPacingTrace.indexOf RequestStep.setLastRequest)
    ∧ (getEventStatisticsPacingTrace.indexOf RequestStep.randomDelay <
       getEventStatisticsPacingTrace.indexOf RequestStep.setLastRequest)
    ∧ (getMatchesPacingTrace.indexOf RequestStep.setLastRequest <
       getMatchesPacingTrace.indexOf RequestStep.randomDelay) := by
  refine ⟨by decide, by decide, by decide⟩

/-- Claim C6 (confirmed): put followed immediately by get with any
positive ttl returns the stored payload; once the elapsed time reaches the
ttl the lookup misses while the entry remains in the map, and a put
replaces the whole entry for its key, touching no other key. -/
theorem claim_C6 : ∀ (α : Type) (cache : Cache α) (key : String) (v : α)
    (ttl now : Rat) (e : CacheEntry α),
    (0 < ttl → cacheGet (cachePut cache key v now) key ttl now = some v)
    ∧ (cache key = some e → ttl ≤ now - e.timestamp → cacheGet cache key ttl now = none)
    ∧ cachePut cache key v now key = some ⟨v, now⟩
    ∧ (∀ k, k ≠ key → cachePut cache key v now k = cache k) := by
  intro α cache key v ttl now e
  refine ⟨?_, ?_, ?_, ?_⟩
  · intro h
    simp [cacheGet, cachePut, sub_self, h]
  · intro he hstale
    simp [cacheGet, he, not_lt.mpr hstale]
  · simp [cachePut]
  · intro k hk
    simp [cachePut, hk]

/-- Witness for C6 at concrete values. -/
theorem claim_C6_witness :
    cacheGet (cachePut (emptyCache Nat) "k" 7 0) "k" 300 0 = some 7
    ∧ cacheGet (cachePut (emptyCache Nat) "k" 5 0) "k" 300 300 = none := by
  constructor
  · exact (claim_C6 Nat (emptyCache Nat) "k" 7 300 0 ⟨0, 0⟩).1 (by norm_num)
  · exact (claim_C6 Nat (cachePut (emptyCache Nat) "k" 5 0) "k" 5 300 300 ⟨5, 0⟩).2.1
      (by decide) (by norm_num)

/-- Claim C9 (confirmed): market categorization is total and
deterministic on integer type codes: every integer lands in exactly one of
the six categories, the five buckets are characterized exactly, and any
integer outside all buckets maps to other_markets.  Determinism is
inherent: the embedding is a pure function of its arguments. -/
theorem claim_C9 : ∀ (n : Int) (sub : PyVal),
    (categorizeMarket (.pyInt n) sub = .main_markets
      ∨ categorizeMarket (.pyInt n) sub = .goals_markets
      ∨ categorizeMarket (.pyInt n) sub = .handicap_markets
      ∨ categorizeMarket (.pyInt n) sub = .player_markets
      ∨ categorizeMarket (.pyInt n) sub = .events_markets
      ∨ categorizeMarket (.pyInt n) sub = .other_markets)
    ∧ (categorizeMarket (.pyInt n) sub = .main_markets ↔ n = 1 ∨ n = 5 ∨ n = 10)
    ∧ (categorizeMarket (.pyInt n) sub = .goals_markets ↔ n = 2 ∨ n = 3 ∨ n = 8)
    ∧ (categorizeMarket (.pyInt n) sub = .handicap_markets ↔ n = 4 ∨ n = 6)
    ∧ (categorizeMarket (.pyInt n) sub = .player_markets ↔ n = 7 ∨ n = 9 ∨ n = 14 ∨ n = 15)
    ∧ (categorizeMarket (.pyInt n) sub = .events_markets ↔ n = 11 ∨ n = 12 ∨ n = 13)
    ∧ (¬(n = 1 ∨ n = 2 ∨ n = 3 ∨ n = 4 ∨ n = 5 ∨ n = 6 ∨ n = 7 ∨ n = 8 ∨ n = 9 ∨ n = 10
        ∨ n = 11 ∨ n = 12 ∨ n = 13 ∨ n = 14 ∨ n = 15) →
      categorizeMarket (.pyInt n) sub = .other_markets) := by
  intro n sub
  rw [categorizeMarket_pyInt]
  split_ifs with h1 h2 h3 h4 h5 <;>
    refine ⟨by simp, ?_, ?_, ?_, ?_, ?_, ?_⟩ <;>
      simp <;> omega

/-- Witness for C9: a code outside every bucket and one inside a bucket. -/
theorem claim_C9_witness :
    categorizeMarket (.pyInt 20) .pyNone = .other_markets
    ∧ categorizeMarket (.pyInt 7) .pyNone = .player_markets := by
  constructor
  · exact (claim_C9 20 .pyNone).2.2.2.2.2.2 (by omega)
  · exact ((claim_C9 7 .pyNone).2.2.2.2.1).mpr (by omega)

/-- Claim C10 (confirmed): a limit of 0 is falsy in Python and is treated
exactly like None: no truncation is applied and every qualifying match is
returned. -/
theorem claim_C10 : ∀ (apiData : RawMatchesPayload) (liveOnly : Bool) (nowIso : String)
    (events : List RawEvent),
    (processMatchesData apiData (some 0) liveOnly nowIso
      = processMatchesData apiData none liveOnly nowIso)
    ∧ ((processMatchesData { isSuccess := true, data := some { events := some events } }
        (some 0) liveOnly nowIso).matchesList
      = (events.filter fun e => !(liveOnly && !(e.il.getD false))).map mkMatchData) := by
  intro apiData lo iso events
  constructor
  · simp only [processMatchesData]
    split_ifs
    · rfl
    · rw [buildMatches_zero_limit]
  · simp only [processMatchesData]
    rw [if_neg (by simp)]
    simp only [MatchesResult.matchesList]
    rw [buildMatches_zero_limit, buildMatches_none_limit]
    simp

/-- Claim C7 (confirmed): with live_only the matches pipeline returns
exactly the live events in original order, and a positive limit truncates
the filtered list to its first limit elements. -/
theorem claim_C7 : ∀ (events : List RawEvent) (nowIso : String) (n : Int),
    ((processMatchesData { isSuccess := true, data := some { events := some events } }
        none true nowIso).matchesList
      = (events.filter fun e => e.il.getD false).map mkMatchData)
    ∧ (0 < n →
      (processMatchesData { isSuccess := true, data := some { events := some events } }
          (some n) true nowIso).matchesList
        = ((events.filter fun e => e.il.getD false).map mkMatchData).take n.toNat) := by
  intro events iso n
  have hfun : (fun e : RawEvent => !(true && !(e.il.getD false)))
      = (fun e : RawEvent => e.il.getD false) := by
    funext e
    simp
  constructor
  · simp only [processMatchesData]
    rw [if_neg (by simp)]
    simp only [MatchesResult.matchesList]
    rw [buildMatches_none_limit, hfun]
    simp
  · intro hn
    simp only [processMatchesData]
    rw [if_neg (by simp)]
    simp only [MatchesResult.matchesList]
    rw [buildMatches_pos_limit _ [] n true hn (by simpa using hn)]
    rw [hfun]
    simp

/-- Witness for C7: five events of which two are live yield exactly those
two, in order; ten qualifying events with limit 3 yield exactly the first
three. -/
theorem claim_C7_witness :
    (processMatchesData { isSuccess := true, data := some { events := some (
        [ { il := some true }, { il := some false }, { il := some true }
        , { il := some false }, { il := some false } ] : List RawEvent) } }
        none true "T").matchesList
      = [ mkMatchData { il := some true }, mkMatchData { il := some true } ]
    ∧ (processMatchesData { isSuccess := true, data := some { events := some (
        [ { il := some true }, { il := some true }, { il := some true }
        , { il := some true }, { il := some true }, { il := some true }
        , { il := some true }, { il := some true }, { il := some true }
        , { il := some true } ] : List RawEvent) } } (some 3) true "T").matchesList
      = [ mkMatchData { il := some true }, mkMatchData { il := some true }
        , mkMatchData { il := some true } ] := by
  constructor
  · rw [(claim_C7 _ "T" 1).1]
    decide
  · rw [(claim_C7 _ "T" 3).2 (by decide)]
    decide

/-- Claim C8 (confirmed): main-odds extraction uses the first market whose
type code equals 1 and ignores every later market; with no type-1 market
the mapping is empty; selections are mapped 1 to home_win, 0 to draw, 2 to
away_win, with all others ignored; and the mapping carries at most those
three keys by construction.  The final conjunct is the example of the
spec. -/
theorem claim_C8 : ∀ (ms1 ms2 : List RawMarket) (mkt : RawMarket) (acc : MainOdds)
    (o : RawSelection),
    ((∀ m ∈ ms1, isMainMarket m = false) → isMainMarket mkt = true →
      extractMainOdds (ms1 ++ mkt :: ms2) = extractMainOdds [mkt])
    ∧ ((∀ m ∈ ms1, isMainMarket m = false) → extractMainOdds ms1 = {})
    ∧ (o.no = some 1 → applyOdd acc o = { acc with home_win := some (o.odd.getD .pyNone) })
    ∧ (o.no = some 0 → applyOdd acc o = { acc with draw := some (o.odd.getD .pyNone) })
    ∧ (o.no = some 2 → applyOdd acc o = { acc with away_win := some (o.odd.getD .pyNone) })
    ∧ ((o.no ≠ some 0 ∧ o.no ≠ some 1 ∧ o.no ≠ some 2) → applyOdd acc o = acc)
    ∧ extractMainOdds
        [ { t := some (.pyInt 1)
          , o := some [ { no := some 1, odd := some (.pyStr "1.80") }
                      , { no := some 0, odd := some (.pyStr "3.20") }
                      , { no := some 2, odd := some (.pyStr "4.50") } ] } ]
      = { home_win := some (.pyStr "1.80"), draw := some (.pyStr "3.20")
        , away_win := some (.pyStr "4.50") } := by
  intro ms1 ms2 mkt acc o
  refine ⟨extractMainOdds_first ms1 mkt ms2, extractMainOdds_no_main ms1,
    ?_, ?_, ?_, ?_, by decide⟩
  · intro h
    simp [applyOdd, h]
  · intro h
    simp [applyOdd, h]
  · intro h
    simp [applyOdd, h]
  · intro h
    unfold applyOdd
    split <;> simp_all

/-- Witness for C8: a first type-1 market wins even when another type-1
market with different odds follows, and a list with no type-1 market
yields the empty mapping. -/
theorem claim_C8_witness :
    extractMainOdds
        [ { t := some (.pyInt 2) }
        , { t := some (.pyInt 1), o := some [ { no := some 1, odd := some (.pyStr "1.80") } ] }
        , { t := some (.pyInt 1), o := some [ { no := some 1, odd := some (.pyStr "9.99") } ] } ]
      = extractMainOdds
        [ { t := some (.pyInt 1), o := some [ { no := some 1, odd := some (.pyStr "1.80") } ] } ]
    ∧ extractMainOdds [ { t := some (.pyInt 2) } ] = {}
    ∧ applyOdd {} { no := some 1, odd := some (.pyStr "1.80") }
      = { home_win := some (.pyStr "1.80") } := by
  refine ⟨?_, ?_, ?_⟩
  · exact (claim_C8 [{ t := some (.pyInt 2) }]
      [{ t := some (.pyInt 1), o := some [ { no := some 1, odd := some (.pyStr "9.99") } ] }]
      { t := some (.pyInt 1), o := some [ { no := some 1, odd := some (.pyStr "1.80") } ] }
      {} {}).1 (by decide) (by decide)
  · exact (claim_C8 [{ t := some (.pyInt 2) }] [] {} {} {}).2.1 (by decide)
  · exact (claim_C8 [] [] {} {} { no := some 1, odd := some (.pyStr "1.80") }).2.2.1 rfl

/-- Every sub-type code that is a member of the subtype_patterns table
also has an exact-match entry "2.{code}" in the market_descriptions table,
so the subtype tier can never be reached through an exact-table miss. -/
lemma subtypePatterns_key_hits_table (s dsc : String) (sov : PyVal)
    (h : subtypePatterns (.pyStr s) = some dsc) :
    ∃ c, marketDescriptions ("2." ++ s) sov = some c := by
  unfold subtypePatterns at h
  by_cases e0 : (PyVal.pyStr s) = (.pyStr "85")
  · injection e0 with hs
    subst hs
    exact ⟨_, rfl⟩
  · rw [if_neg e0] at h
    by_cases e1 : (PyVal.pyStr s) = (.pyStr "88")
    · injection e1 with hs
      subst hs
      exact ⟨_, rfl⟩
    · rw [if_neg e1] at h
      by_cases e2 : (PyVal.pyStr s) = (.pyStr "36")
      · injection e2 with hs
        subst hs
        exact ⟨_, rfl⟩
      · rw [if_neg e2] at h
        by_cases e3 : (PyVal.pyStr s) = (.pyStr "77")
        · injection e3 with hs
          subst hs
          exact ⟨_, rfl⟩
        · rw [if_neg e3] at h
          by_cases e4 : (PyVal.pyStr s) = (.pyStr "91")
          · injection e4 with hs
            subst hs
            exact ⟨_, rfl⟩
          · rw [if_neg e4] at h
            by_cases e5 : (PyVal.pyStr s) = (.pyStr "89")
            · injection e5 with hs
              subst hs
              exact ⟨_, rfl⟩
            · rw [if_neg e5] at h
              by_cases e6 : (PyVal.pyStr s) = (.pyStr "84")
              · injection e6 with hs
                subst hs
                exact ⟨_, rfl⟩
              · rw [if_neg e6] at h
                by_cases e7 : (PyVal.pyStr s) = (.pyStr "4")
                · injection e7 with hs
                  subst hs
                  exact ⟨_, rfl⟩
                · rw [if_neg e7] at h
                  by_cases e8 : (PyVal.pyStr s) = (.pyStr "821")
                  · injection e8 with hs
                    subst hs
                    exact ⟨_, rfl⟩
                  · rw [if_neg e8] at h
                    by_cases e9 : (PyVal.pyStr s) = (.pyStr "730")
                    · injection e9 with hs
                      subst hs
                      exact ⟨_, rfl⟩
                    · rw [if_neg e9] at h
                      by_cases e10 : (PyVal.pyStr s) = (.pyStr "729")
                      · injection e10 with hs
                        subst hs
                        exact ⟨_, rfl⟩
                      · rw [if_neg e10] at h
                        by_cases e11 : (PyVal.pyStr s) = (.pyStr "698")
                        · injection e11 with hs
                          subst hs
                          exact ⟨_, rfl⟩
                        · rw [if_neg e11] at h
                          by_cases e12 : (PyVal.pyStr s) = (.pyStr "699")
                          · injection e12 with hs
                            subst hs
                            exact ⟨_, rfl⟩
                          · rw [if_neg e12] at h
                            by_cases e13 : (PyVal.pyStr s) = (.pyStr "6")
                            · injection e13 with hs
                              subst hs
                              exact ⟨_, rfl⟩
                            · rw [if_neg e13] at h
                              exact Option.noConfusion h

/-- Claim C4 (confirmed): for a market missing from the exact-match table
with type code 2, the resolved description when a special value is present
is the generic type-plus-special-value composition, and the special-value
tier takes precedence over the sub-type-pattern tier (the special-value
test comes first and returns).  The sub-type-tier conjunct is vacuously
true: every sub-type code in the secondary table has an exact-table entry
"2.{code}", so its premise (exact miss plus secondary membership) is
unsatisfiable — the secondary table is unreachable code.  The type code
is taken as either the string "2" (which the source's equality test
recognizes) or the integer 2 (the representation raw payloads use, which
falls through to the main-type fallback, producing the spelled-out
composition). -/
theorem claim_C4 : ∀ (t st sov : PyVal),
    (t = .pyStr "2" ∨ t = .pyInt 2) →
    marketDescriptions (pyToStr t ++ "." ++ pyToStr st) sov = none →
    ((pyTruthy sov = false → ∀ dsc, subtypePatterns st = some dsc →
        getMarketDescription t st sov = dsc)
     ∧ (pyTruthy sov = true →
        getMarketDescription t st sov =
          if t = .pyStr "2" then "Goals & Statistics (" ++ pyToStr sov ++ ")"
          else "Goals and Statistics (" ++ pyToStr sov ++ ")")) := by
  intro t st sov ht hmiss
  have hkey : pyToStr t = "2" := by
    rcases ht with rfl | rfl
    · rfl
    · simp [pyToStr, pyStrInt_2]
  constructor
  · intro _ dsc hdsc
    exfalso
    cases st with
    | pyNone =>
      rw [show subtypePatterns .pyNone = none from rfl] at hdsc
      exact Option.noConfusion hdsc
    | pyInt k =>
      rw [show subtypePatterns (.pyInt k) = none from rfl] at hdsc
      exact Option.noConfusion hdsc
    | pyStr s =>
      obtain ⟨c, hc⟩ := subtypePatterns_key_hits_table s dsc sov hdsc
      rw [hkey] at hmiss
      simp only [pyToStr] at hmiss
      have hmiss2 : marketDescriptions ("2." ++ s) sov = none := hmiss
      rw [hc] at hmiss2
      exact Option.noConfusion hmiss2
  · intro hsov
    rcases ht with rfl | rfl
    · simp only [getMarketDescription]
      rw [hmiss]
      simp [pyEq, hsov]
    · simp only [getMarketDescription]
      rw [hmiss]
      simp [pyEq, hsov, mainTypeFallback, mainTypeDescription, pyToStr, pyStrInt_2]

/-- Witness for C4: a type-2 market with an unknown sub-type and a special
value resolves to the generic composition, in both representations of the
type code. -/
theorem claim_C4_witness :
    getMarketDescription (.pyStr "2") (.pyStr "999") (.pyStr "3.5")
      = "Goals & Statistics (3.5)"
    ∧ getMarketDescription (.pyInt 2) (.pyStr "999") (.pyStr "3.5")
      = "Goals and Statistics (3.5)" := by
  constructor
  · have h := (claim_C4 (.pyStr "2") (.pyStr "999") (.pyStr "3.5")
      (Or.inl rfl) rfl).2 (by decide)
    rw [h]
    decide
  · have h := (claim_C4 (.pyInt 2) (.pyStr "999") (.pyStr "3.5")
      (Or.inr rfl) (by simp only [pyToStr, pyStrInt_2]; rfl)).2 (by decide)
    rw [h]
    decide

/-- Claim C2 (counterexample): every pipeline stamps the ambient
datetime.now().isoformat() sample into its result (lines 381, 587, 652),
so two calls with identical raw input made at different clock readings
produce different outputs — two-run equality fails. -/
theorem claim_C2_counterexample :
    processMatchesData { isSuccess := true, data := some {} } none false "A"
      ≠ processMatchesData { isSuccess := true, data := some {} } none false "B"
    ∧ processDetailedEvent (.wellFormed {}) "E1" "A"
      ≠ processDetailedEvent (.wellFormed {}) "E1" "B"
    ∧ processEventStatistics (.wellFormed {}) "E1" "A"
      ≠ processEventStatistics (.wellFormed {}) "E1" "B" := by
  refine ⟨by decide, by decide, by decide⟩

/-- Claim C2 (amended): the three pipelines perform no I/O and use no
randomness; their only ambient input is the clock sample used for the
top-level timestamp field (the except-branch records of the detail and
statistics pipelines carry no timestamp at all).  With the timestamp
erased, any two runs on the same raw input are equal, whatever the two
clock readings were. -/
theorem claim_C2_amended :
    (∀ (apiData : RawMatchesPayload) (limit : Option Int) (liveOnly : Bool) (t₁ t₂ : String),
      (processMatchesData apiData limit liveOnly t₁).clearTimestamp
        = (processMatchesData apiData limit liveOnly t₂).clearTimestamp)
    ∧ (∀ (ed : RawDetailData) (eid t₁ t₂ : String),
      (processDetailedEvent ed eid t₁).clearTimestamp
        = (processDetailedEvent ed eid t₂).clearTimestamp)
    ∧ (∀ (d : RawStatsInput) (eid t₁ t₂ : String),
      (processEventStatistics d eid t₁).clearTimestamp
        = (processEventStatistics d eid t₂).clearTimestamp) := by
  refine ⟨?_, ?_, ?_⟩
  · intro apiData limit lo t₁ t₂
    simp only [processMatchesData]
    split_ifs <;> rfl
  · intro ed eid t₁ t₂
    cases ed <;> rfl
  · intro d eid t₁ t₂
    cases d with
    | malformed m => rfl
    | wellFormed dd =>
      show StatsResult.ok (processEventStatisticsBody dd eid t₁).clearTimestamp
        = StatsResult.ok (processEventStatisticsBody dd eid t₂).clearTimestamp
      rw [clear_processEventStatisticsBody, clear_processEventStatisticsBody]

/-- Claim C3 (counterexample): on a raw payload with every model key
absent, the result still carries the tournament_standings key, bound to
the empty dict it was initialised to — the field is present as a default
value, not omitted. -/
theorem claim_C3_counterexample :
    ({} : RawStatsData).tournamentStandingsModel = RawOpt.absent
    ∧ "tournament_standings" ∈ (processEventStatisticsBody {} "E1" "T").keys
    ∧ (processEventStatisticsBody {} "E1" "T").tournament_standings = SubRec.emptyDict := by
  refine ⟨rfl, by decide, by decide⟩

/-- Claim C3 (amended): on well-shaped data _process_event_statistics
returns its try-block result, for which overall success is always true and
each sub-section depends only on its own raw keys, so one section's
absence never invalidates another.  However the sub-section keys are all present
from initialisation, holding an empty record when their raw key is absent
or falsy; only recent_form is genuinely omitted until lastEventModel is
present and truthy.  Each sub-section is populated exactly when a
corresponding raw key is present and truthy (standings also accept the
league-table model; the page-referee source additionally needs a positive
referee id). -/
theorem claim_C3_amended : ∀ (d : RawStatsData) (eid t : String),
    processEventStatistics (.wellFormed d) eid t = .ok (processEventStatisticsBody d eid t)
    ∧ (processEventStatisticsBody d eid t).success = true
    ∧ ((processEventStatisticsBody d eid t).event_info ≠ .emptyDict
        ↔ ∃ e, d.eventInformationModel = .val e)
    ∧ ((processEventStatisticsBody d eid t).tournament_standings ≠ .emptyDict
        ↔ (∃ s0 rest, d.tournamentStandingsModel = .val (s0 :: rest))
          ∨ ∃ tb, d.leagueTableModel = .val tb)
    ∧ ((processEventStatisticsBody d eid t).head_to_head ≠ .emptyDict
        ↔ (∃ h, d.recentEventModel = .val h) ∨ ∃ h, d.headToHeadModel = .val h)
    ∧ ((processEventStatisticsBody d eid t).recent_matches ≠ .emptyDict
        ↔ ∃ f, d.recentFormModel = .val f)
    ∧ ((processEventStatisticsBody d eid t).betting_analysis ≠ .emptyDict
        ↔ (∃ b, d.soccerIddaaAnalysModel = .val b)
          ∨ ∃ b, d.bettingAnalysisModel = .val b)
    ∧ ((processEventStatisticsBody d eid t).referee_info ≠ .emptyDict
        ↔ (∃ p, d.soccerRefereePageModel = .val p ∧ 0 < p.referee.id.getD 0)
          ∨ ∃ ri, d.refereeInformation = .val ri)
    ∧ ((processEventStatisticsBody d eid t).team_stats ≠ .emptyDict
        ↔ ∃ ts, d.teamStatisticsModel = .val ts)
    ∧ (("recent_form" ∈ (processEventStatisticsBody d eid t).keys
        ∧ (processEventStatisticsBody d eid t).recent_form.isSome = true)
        ↔ ∃ f, d.lastEventModel = .val f) := by
  intro d eid t
  refine ⟨rfl, stats_success d eid t, ?_, ?_, ?_, ?_, ?_, ?_, ?_, ?_⟩
  · rw [stats_event_info]
    cases d.eventInformationModel <;> simp
  · rw [stats_tournament_standings]
    cases d.leagueTableModel <;> cases hts : d.tournamentStandingsModel <;>
      first
        | (simp; done)
        | (rename_i l
           cases l <;> simp)
  · rw [stats_head_to_head]
    cases d.headToHeadModel <;> cases d.recentEventModel <;> simp
  · rw [stats_recent_matches]
    cases d.recentFormModel <;> simp
  · rw [stats_betting_analysis]
    cases d.bettingAnalysisModel <;> cases d.soccerIddaaAnalysModel <;> simp
  · rw [stats_referee_info]
    cases d.refereeInformation <;> cases d.soccerRefereePageModel <;>
      first
        | (simp; done)
        | (rename_i p
           by_cases hid : 0 < p.referee.id.getD 0 <;> simp [hid])
  · rw [stats_team_stats]
    cases d.teamStatisticsModel <;> simp
  · simp only [StatsOk.keys, stats_recent_form]
    cases d.lastEventModel <;> simp

/-- Claim C1 (counterexample): get_matches caches the result of
processing every HTTP-200 body unconditionally (lines 145-155).  A
well-formed 200 body whose isSuccess flag is false normalizes to a
failure record, and that failure record is stored in the cache: starting
from an empty cache, the key is bound after the call. -/
theorem claim_C1_counterexample :
    ((getMatches (emptyCache MatchesResult) 300 none false 0
        (.ok { isSuccess := false }) 0 "T").1.success = false)
    ∧ ((getMatches (emptyCache MatchesResult) 300 none false 0
        (.ok { isSuccess := false }) 0 "T").2 "matches_None_False"
      = some ⟨MatchesResult.err "Invalid API response format" "T", 0⟩) := by
  refine ⟨by decide, by decide⟩

/-- Claim C1 (amended): pre-processing failures are never cached — a
non-200 status, transport exception or JSON-decode failure leaves every
fetcher's cache unchanged, and get_event_details / get_event_statistics
also leave the cache unchanged when the 200 payload fails the
isSuccess/data gate.  But every processing result is cached: get_matches
stores the processed result of every 200 body on a cache miss even when
normalization produced a failure record, and on a miss with use_cache set
the detail and statistics fetchers store whatever _process_detailed_event
/ _process_event_statistics returned — including the success=False
except-branch record produced on malformed data (lines 224-228, 313-317
after 638-644 and 891-897). -/
theorem claim_C1_amended :
    (∀ (cache : Cache MatchesResult) (dur : Rat) (limit : Option Int) (liveOnly : Bool)
       (nowC : Rat) (outcome : HttpOutcome RawMatchesPayload) (nowS : Rat) (iso : String),
       outcome.isOk = false →
       (getMatches cache dur limit liveOnly nowC outcome nowS iso).2 = cache)
    ∧ (∀ (cache : Cache MatchesResult) (dur : Rat) (limit : Option Int) (liveOnly : Bool)
       (nowC : Rat) (body : RawMatchesPayload) (nowS : Rat) (iso : String),
       cacheGet cache (matchesCacheKey limit liveOnly) dur nowC = none →
       (getMatches cache dur limit liveOnly nowC (.ok body) nowS iso).2
         = cachePut cache (matchesCacheKey limit liveOnly)
             (processMatchesData body limit liveOnly iso) nowS)
    ∧ (∀ (cache : Cache DetailResult) (dur : Rat) (eventId : String) (useCache : Bool)
       (nowC : Rat) (outcome : HttpOutcome RawDetailPayload) (nowS : Rat) (iso : String),
       outcome.isOk = false →
       (getEventDetails cache dur eventId useCache nowC outcome nowS iso).2 = cache)
    ∧ (∀ (cache : Cache DetailResult) (dur : Rat) (eventId : String) (useCache : Bool)
       (nowC : Rat) (body : RawDetailPayload) (nowS : Rat) (iso : String),
       ¬ (body.isSuccess = true ∧ body.data ≠ none) →
       (getEventDetails cache dur eventId useCache nowC (.ok body) nowS iso).2 = cache)
    ∧ (∀ (cache : Cache DetailResult) (dur : Rat) (eventId : String)
       (nowC : Rat) (body : RawDetailPayload) (nowS : Rat) (iso : String),
       cacheGet cache (detailsCacheKey eventId) dur nowC = none →
       body.isSuccess = true → body.data ≠ none →
       (getEventDetails cache dur eventId true nowC (.ok body) nowS iso).2
         = cachePut cache (detailsCacheKey eventId)
             (processDetailedEvent (body.data.getD (.wellFormed {})) eventId iso) nowS)
    ∧ (∀ (cache : Cache StatsResult) (dur : Rat) (eventId : String) (useCache : Bool)
       (nowC : Rat) (outcome : HttpOutcome RawStatsPayload) (nowS : Rat) (iso : String),
       outcome.isOk = false →
       (getEventStatistics cache dur eventId useCache nowC outcome nowS iso).2 = cache)
    ∧ (∀ (cache : Cache StatsResult) (dur : Rat) (eventId : String) (useCache : Bool)
       (nowC : Rat) (body : RawStatsPayload) (nowS : Rat) (iso : String),
       ¬ (body.isSuccess = true ∧ body.data ≠ none) →
       (getEventStatistics cache dur eventId useCache nowC (.ok body) nowS iso).2 = cache)
    ∧ (∀ (cache : Cache StatsResult) (dur : Rat) (eventId : String)
       (nowC : Rat) (body : RawStatsPayload) (nowS : Rat) (iso : String),
       cacheGet cache (statsCacheKey eventId) dur nowC = none →
       body.isSuccess = true → body.data ≠ none →
       (getEventStatistics cache dur eventId true nowC (.ok body) nowS iso).2
         = cachePut cache (statsCacheKey eventId)
             (processEventStatistics (body.data.getD (.wellFormed {})) eventId iso) nowS) := by
  refine ⟨?_, ?_, ?_, ?_, ?_, ?_, ?_, ?_⟩
  · intro cache dur limit lo nowC outcome nowS iso h
    simp only [getMatches]
    cases hcg : cacheGet cache (matchesCacheKey limit lo) dur nowC with
    | some c => simp
    | none =>
      cases outcome with
      | ok body => simp [HttpOutcome.isOk] at h
      | httpError c r => simp
      | badJson m => simp
      | exn m => simp
  · intro cache dur limit lo nowC body nowS iso hmiss
    simp only [getMatches, hmiss]
  · intro cache dur eid uc nowC outcome nowS iso h
    simp only [getEventDetails]
    cases hcg : (if uc then cacheGet cache (detailsCacheKey eid) dur nowC else none) with
    | some c => simp [hcg]
    | none =>
      cases outcome with
      | ok body => simp [HttpOutcome.isOk] at h
      | httpError c r => simp [hcg]
      | badJson m => simp [hcg]
      | exn m => simp [hcg]
  · intro cache dur eid uc nowC body nowS iso hg
    simp only [getEventDetails]
    cases hcg : (if uc then cacheGet cache (detailsCacheKey eid) dur nowC else none) with
    | some c => simp [hcg]
    | none => simp [hcg, hg]
  · intro cache dur eid nowC body nowS iso hmiss hs hd
    simp only [getEventDetails, if_true, hmiss, hs, hd]
    simp [hs, hd]
  · intro cache dur eid uc nowC outcome nowS iso h
    simp only [getEventStatistics]
    cases hcg : (if uc then cacheGet cache (statsCacheKey eid) dur nowC else none) with
    | some c => simp [hcg]
    | none =>
      cases outcome with
      | ok body => simp [HttpOutcome.isOk] at h
      | httpError c r => simp [hcg]
      | badJson m => simp [hcg]
      | exn m => simp [hcg]
  · intro cache dur eid uc nowC body nowS iso hg
    simp only [getEventStatistics]
    cases hcg : (if uc then cacheGet cache (statsCacheKey eid) dur nowC else none) with
    | some c => simp [hcg]
    | none => simp [hcg, hg]
  · intro cache dur eid nowC body nowS iso hmiss hs hd
    simp only [getEventStatistics, if_true, hmiss, hs, hd]
    simp [hs, hd]

/-- Witness for C1 (amended) at concrete inputs: a non-200 status leaves
the matches cache untouched and a transport exception leaves the details
and statistics caches untouched, as does a 200 body failing the isSuccess
gate; a 200 body with isSuccess false is stored by get_matches even though
processing failed; and behind the gate a malformed data value ("boom"
standing for str(e) of the raised exception) has its except-branch
failure record stored in the details and statistics caches. -/
theorem claim_C1_witness :
    ((getMatches (emptyCache MatchesResult) 300 none false 0
        (.httpError 500 "Server Error") 0 "T").2 = emptyCache MatchesResult)
    ∧ ((getMatches (emptyCache MatchesResult) 300 none false 0
        (.ok { isSuccess := false }) 0 "T").2
      = cachePut (emptyCache MatchesResult) (matchesCacheKey none false)
          (processMatchesData { isSuccess := false } none false "T") 0)
    ∧ ((getEventDetails (emptyCache DetailResult) 600 "E1" true 0
        (.exn "timeout") 0 "T").2 = emptyCache DetailResult)
    ∧ ((getEventDetails (emptyCache DetailResult) 600 "E1" true 0
        (.ok { isSuccess := false }) 0 "T").2 = emptyCache DetailResult)
    ∧ ((getEventDetails (emptyCache DetailResult) 600 "E1" true 0
        (.ok { isSuccess := true, data := some (.malformed "boom") }) 0 "T").1.success
      = false)
    ∧ ((getEventDetails (emptyCache DetailResult) 600 "E1" true 0
        (.ok { isSuccess := true, data := some (.malformed "boom") }) 0 "T").2
      = cachePut (emptyCache DetailResult) (detailsCacheKey "E1")
          (processDetailedEvent (.malformed "boom") "E1" "T") 0)
    ∧ ((getEventStatistics (emptyCache StatsResult) 600 "E1" true 0
        (.exn "timeout") 0 "T").2 = emptyCache StatsResult)
    ∧ ((getEventStatistics (emptyCache StatsResult) 600 "E1" true 0
        (.ok { isSuccess := false }) 0 "T").2 = emptyCache StatsResult)
    ∧ ((getEventStatistics (emptyCache StatsResult) 600 "E1" true 0
        (.ok { isSuccess := true, data := some (.malformed "boom") }) 0 "T").1.success
      = false)
    ∧ ((getEventStatistics (emptyCache StatsResult) 600 "E1" true 0
        (.ok { isSuccess := true, data := some (.malformed "boom") }) 0 "T").2
      = cachePut (emptyCache StatsResult) (statsCacheKey "E1")
          (processEventStatistics (.malformed "boom") "E1" "T") 0) := by
  refine ⟨?_, ?_, ?_, ?_, ?_, ?_, ?_, ?_, ?_, ?_⟩
  · exact claim_C1_amended.1 (emptyCache MatchesResult) 300 none false 0
      (.httpError 500 "Server Error") 0 "T" (by decide)
  · exact claim_C1_amended.2.1 (emptyCache MatchesResult) 300 none false 0
      { isSuccess := false } 0 "T" (by decide)
  · exact claim_C1_amended.2.2.1 (emptyCache DetailResult) 600 "E1" true 0
      (.exn "timeout") 0 "T" (by decide)
  · exact claim_C1_amended.2.2.2.1 (emptyCache DetailResult) 600 "E1" true 0
      { isSuccess := false } 0 "T" (by decide)
  · decide
  · exact claim_C1_amended.2.2.2.2.1 (emptyCache DetailResult) 600 "E1" 0
      { isSuccess := true, data := some (.malformed "boom") } 0 "T"
      (by decide) rfl (by decide)
  · exact claim_C1_amended.2.2.2.2.2.1 (emptyCache StatsResult) 600 "E1" true 0
      (.exn "timeout") 0 "T" (by decide)
  · exact claim_C1_amended.2.2.2.2.2.2.1 (emptyCache StatsResult) 600 "E1" true 0
      { isSuccess := false } 0 "T" (by decide)
  · decide
  · exact claim_C1_amended.2.2.2.2.2.2.2 (emptyCache StatsResult) 600 "E1" 0
      { isSuccess := true, data := some (.malformed "boom") } 0 "T"
      (by decide) rfl (by decide)

/-- Witness for C3 (amended): a payload carrying only headToHeadModel
populates the head-to-head section. -/
theorem claim_C3_witness :
    (processEventStatisticsBody { headToHeadModel := .val {} } "E1" "T").head_to_head
      ≠ SubRec.emptyDict :=
  ((claim_C3_amended { headToHeadModel := .val {} } "E1" "T").2.2.2.2.1).mpr
    (Or.inr ⟨{}, rfl⟩)
